import Mathlib

/-!
# Provisioning daemon: selection controller and RPC agent

A shallow embedding of `src/provisioning-daemon/src/controls.c` and
`src/provisioning-daemon/src/ubus_agent.c`.

Conventions of the embedding.

* The file-static variables of `controls.c` (`_connectedClickersId`,
  `selectedClickerIndex`) are the fields of the structure `Controls`; every
  C function that touches them takes the structure and returns the new one.
* `event_PushEventWith...` calls are modelled by the list of pushed events a
  function returns, in the order of the calls.
* C `int` values are `Int`, C `guint`/`uint32_t` values are `Nat`; the
  conversions between the two are the explicit functions `toUInt` and `toInt`
  (reduction modulo `2 ^ 32`).  A `GArray` is the list of its elements and its
  `len` field (a `guint`) is the length of the list.
* `LOG`, `g_debug`, `g_info`, `g_critical` print diagnostics and change no
  state.  Three `LOG` lines of `controls.c` have an array read as argument
  (lines 68, 190 and 225).  `SelectNextClickerCallback`, `RemoveClickerWithID`
  and `controls_ConsumeEvent` give the state and the events of these functions;
  the definitions `SelectNextClickerCallback.withLog`,
  `RemoveClickerWithID.withLog` and `controls_ConsumeEvent.withLog` translate
  the same functions together with these reads, a read outside the array being
  the result `none`.
-/

namespace ProvisionDaemon

/-! ## Machine integers -/

/-- Value of a C `int` after conversion to `guint` / `uint32_t`. -/
def toUInt (x : Int) : Nat := (x % 4294967296).toNat

/-- Value of a `guint` / `uint32_t` after conversion to a C `int`
(two's complement). -/
def toInt (n : Nat) : Int :=
  if n % 4294967296 < 2147483648 then ((n % 4294967296 : Nat) : Int)
  else ((n % 4294967296 : Nat) : Int) - 4294967296

/-- The `guint` expression `len - 1`, converted to `int` by the assignment to
`selectedClickerIndex`. -/
def lenMinusOne (len : Nat) : Int := toInt (len + 4294967296 - 1)

/-! ## Events -/

/-- The event kinds named in the two source files (`EventType_...`). -/
inductive EventType where
  | CLICKER_CREATE
  | CLICKER_DESTROY
  | CLICKER_SELECT
  | CLICKER_START_PROVISION
  | HISTORY_REMOVE
  | PSK_OBTAINED
  | CONNECTION_SEND_COMMAND
  deriving DecidableEq, Repr

/-- The part of `Event` read by `controls_ConsumeEvent`. -/
structure Event where
  type : EventType
  intData : Int
  deriving DecidableEq, Repr

/-- The two highlight commands sent by `UpdateHighlights`. -/
inductive NetworkCommand where
  | ENABLE_HIGHLIGHT
  | DISABLE_HIGHLIGHT
  deriving DecidableEq, Repr

/-- The fields of `PreSharedKey` written by `GeneratePskResponseHandler`.
`identity` and `psk` are the C strings held by the two character arrays of the
record; a record fresh from `g_new0` has both empty and both lengths 0. -/
structure PreSharedKey where
  clickerId : Int
  identity : String
  identityLen : Nat
  psk : String
  pskLen : Nat
  deriving DecidableEq, Repr

/-- One call that pushes an event on the queue.
`withInt ty n` is `event_PushEventWithInt(ty, n)`;
`sendCommand id cmd` is `event_PushEventWithPtr(EventType_CONNECTION_SEND_COMMAND,
con_BuildNetworkDataPack(id, cmd, NULL, 0, false), true)`;
`pskObtained data` is `event_PushEventWithPtr(EventType_PSK_OBTAINED, data, true)`. -/
inductive Pushed where
  | withInt (type : EventType) (intData : Int)
  | sendCommand (clickerId : Int) (cmd : NetworkCommand)
  | pskObtained (data : PreSharedKey)
  deriving DecidableEq, Repr

/-! ## Controller state (`controls.c`) -/

/-- File-static state of `controls.c`. -/
structure Controls where
  connectedClickersId : List Int
  selectedClickerIndex : Int
  deriving DecidableEq, Repr

/-- Static initialisers of `controls.c`: `selectedClickerIndex = -1`, no array yet. -/
def Controls.statics : Controls :=
  { connectedClickersId := [], selectedClickerIndex := -1 }

/-- Model of `controls_init`: a fresh empty `GArray` is stored in `_connectedClickersId`;
`selectedClickerIndex` is not assigned.  Button registration has no effect on
the state modelled here. -/
def controls_init (c : Controls) (_enableButtons : Bool) : Controls :=
  { c with connectedClickersId := [] }

/-- Loop of `UpdateHighlights`, `t` being the loop counter and `sel` the value
of `selectedClickerIndex`; `t == selectedClickerIndex` compares a `guint` with
an `int`, that is, after conversion of the `int` to unsigned. -/
def UpdateHighlights.loop (sel : Int) : Nat → List Int → List Pushed
  | _, [] => []
  | t, clickerId :: rest =>
    Pushed.sendCommand clickerId
        (if t = toUInt sel then NetworkCommand.ENABLE_HIGHLIGHT
         else NetworkCommand.DISABLE_HIGHLIGHT)
      :: UpdateHighlights.loop sel (t + 1) rest

/-- Model of `UpdateHighlights`: one command per connected clicker, in order. -/
def UpdateHighlights (c : Controls) : List Pushed :=
  UpdateHighlights.loop c.selectedClickerIndex 0 c.connectedClickersId

/-- State and events of `SelectNextClickerCallback`.  The increment is done on a
32-bit `int`; the comparison with `len` is unsigned.  The read made for the
`LOG` line is part of `SelectNextClickerCallback.withLog`. -/
def SelectNextClickerCallback (c : Controls) : Controls × List Pushed :=
  let incremented := toInt (toUInt (c.selectedClickerIndex + 1))
  let len := c.connectedClickersId.length
  let idx := if toUInt incremented ≥ len then lenMinusOne len else incremented
  let c1 : Controls := { c with selectedClickerIndex := idx }
  (c1, UpdateHighlights c1)

/-- Search loop shared by `RemoveClickerWithID` and `SelectClickerWithId`:
index of the first element equal to `clickerID`, counting from `t`. -/
def findLoop (clickerID : Int) : Nat → List Int → Option Nat
  | _, [] => none
  | t, x :: rest => if x = clickerID then some t else findLoop clickerID (t + 1) rest

/-- Model of GLib `g_array_remove_index`: the call starts with
`g_return_val_if_fail (index_ < array->len, NULL)`, so an index outside the
array leaves it as it is; otherwise the element is removed and the following
ones move down one place. -/
def g_array_remove_index (a : List Int) (index : Nat) : List Int :=
  if index < a.length then a.eraseIdx index else a

/-- State after `RemoveClickerWithID`.  `foundIndex` is a `guint` initialised
with `-1`, that is `4294967295`; the test `foundIndex >= 0` is kept as written.
The read made for the `LOG` line is part of `RemoveClickerWithID.withLog`. -/
def RemoveClickerWithID (c : Controls) (clickerID : Int) : Controls :=
  let foundIndex : Nat := (findLoop clickerID 0 c.connectedClickersId).getD 4294967295
  if foundIndex ≥ 0 then
    let arr := g_array_remove_index c.connectedClickersId foundIndex
    if toUInt c.selectedClickerIndex ≥ arr.length then
      { connectedClickersId := arr, selectedClickerIndex := lenMinusOne arr.length }
    else
      { connectedClickersId := arr, selectedClickerIndex := c.selectedClickerIndex }
  else c

/-- Model of `SelectClickerWithId`: the cursor is assigned the (unsigned) loop
counter at the first match. -/
def SelectClickerWithId (c : Controls) (clickerId : Int) : Controls :=
  match findLoop clickerId 0 c.connectedClickersId with
  | some t => { c with selectedClickerIndex := toInt t }
  | none => c

/-- Model of `controls_GetSelectedClickerId`; `none` stands for a read of
`g_array_index` outside the array. -/
def controls_GetSelectedClickerId (c : Controls) : Option Int :=
  if c.selectedClickerIndex < 0 then some (-1)
  else c.connectedClickersId[c.selectedClickerIndex.toNat]?

/-- Model of `controls_GetAllClickersIds`: a copy of the array. -/
def controls_GetAllClickersIds (c : Controls) : List Int := c.connectedClickersId

/-- State, events and return value of `controls_ConsumeEvent`.  The reads made
for the `LOG` lines are part of `controls_ConsumeEvent.withLog`. -/
def controls_ConsumeEvent (c : Controls) (event : Event) : Controls × List Pushed × Bool :=
  match event.type with
  | EventType.CLICKER_CREATE =>
    let arr := c.connectedClickersId ++ [event.intData]
    let idx := if c.selectedClickerIndex = -1 then 0 else c.selectedClickerIndex
    let c1 : Controls := { connectedClickersId := arr, selectedClickerIndex := idx }
    (c1, UpdateHighlights c1, true)
  | EventType.CLICKER_DESTROY =>
    let c1 := RemoveClickerWithID c event.intData
    (c1, UpdateHighlights c1, true)
  | EventType.CLICKER_SELECT =>
    let c1 := SelectClickerWithId c event.intData
    (c1, UpdateHighlights c1, true)
  | _ => (c, [], false)

/-- State after feeding a list of events to `controls_ConsumeEvent`, one by one. -/
def runEvents (c : Controls) (events : List Event) : Controls :=
  events.foldl (fun s e => (controls_ConsumeEvent s e).1) c

/-- The controller right after `controls_init` at program start. -/
def initialControls : Controls := controls_init Controls.statics false

/-- The cursor invariant of the data model: the cursor is the sentinel `-1`
exactly when the sequence is empty, and otherwise a valid index. -/
def CursorInv (c : Controls) : Prop :=
  -1 ≤ c.selectedClickerIndex ∧
  c.selectedClickerIndex ≤ (c.connectedClickersId.length : Int) - 1 ∧
  (c.selectedClickerIndex = -1 ↔ c.connectedClickersId.length = 0)

instance (c : Controls) : Decidable (CursorInv c) := by
  unfold CursorInv; infer_instance

/-! ## Device registry and history store (external collaborators) -/

/-- The fields of a `Clicker` record that the two source files read or write. -/
structure Clicker where
  clickerID : Int
  name : String
  provisioningInProgress : Bool
  provisionTime : Nat
  error : Int
  deriving DecidableEq, Repr

/-- The device registry: the records it holds, each keyed by its `clickerID`. -/
abbrev Registry := List Clicker

/-- Modelled from the spec: `clicker_AcquireOwnership` of the device registry
(`clicker.c` is not among the sources).  A keyed lookup that yields the record
of the given id, or "not found" (`NULL`). -/
def clicker_AcquireOwnership (r : Registry) (clickerID : Int) : Option Clicker :=
  r.find? (fun k => k.clickerID == clickerID)

/-- Modelled from the spec: a write through the pointer handed out by
`clicker_AcquireOwnership`, followed by `clicker_ReleaseOwnership`: the record
found for the id is replaced by `f` of it, every other record is left as it is. -/
def Registry.write (f : Clicker → Clicker) (clickerID : Int) : Registry → Registry
  | [] => []
  | k :: rest =>
    if k.clickerID == clickerID then f k :: rest
    else k :: Registry.write f clickerID rest

/-- The fields of a `HistoryItem` read by `GetStateMethodHandler`
(the items come from `history_GetProvisioned`). -/
structure HistoryItem where
  id : Int
  name : String
  isErrored : Bool
  deriving DecidableEq, Repr

/-! ## `StartProvisionCallback` (`controls.c`) -/

/-- Model of `StartProvisionCallback`: the controller state, the registry and
the events pushed; `none` stands for a read of `g_array_index` outside the
array. -/
def StartProvisionCallback (c : Controls) (r : Registry) :
    Option (Controls × Registry × List Pushed) :=
  if c.selectedClickerIndex < 0 ∨ c.connectedClickersId.length = 0 then
    some (c, r, [])
  else
    match c.connectedClickersId[c.selectedClickerIndex.toNat]? with
    | none => none
    | some clickerId =>
      match clicker_AcquireOwnership r clickerId with
      | none => some (c, r, [])
      | some _ =>
        some (c,
          Registry.write (fun k => { k with provisioningInProgress := true }) clickerId r,
          [Pushed.withInt EventType.CLICKER_START_PROVISION clickerId,
           Pushed.withInt EventType.HISTORY_REMOVE clickerId])

/-! ## RPC agent (`ubus_agent.c`) -/

/-- Status `UBUS_STATUS_OK` of libubus. -/
def UBUS_STATUS_OK : Nat := 0

/-- Status `UBUS_STATUS_NO_DATA` of libubus. -/
def UBUS_STATUS_NO_DATA : Nat := 5

/-- One `clicker` table of the `clickers` array in the reply of `getState`.
The `id` field keeps the `int` whose 32 bits `blobmsg_add_u32` stores. -/
structure ClickerEntry where
  id : Int
  name : String
  selected : Bool
  inProvisionState : Bool
  isProvisioned : Bool
  isError : Bool
  deriving DecidableEq, Repr

/-- First loop of `GetStateMethodHandler`: one table per history item. -/
def GetState.historyLoop : List HistoryItem → List ClickerEntry
  | [] => []
  | history :: rest =>
    { id := history.id, name := history.name, selected := false,
      inProvisionState := false, isProvisioned := true,
      isError := history.isErrored } :: GetState.historyLoop rest

/-- Inner `j` loop of `GetStateMethodHandler`: is there a history item whose id
equals `clk->clickerID`. -/
def GetState.alreadyProvisioned (clickerID : Int) : List HistoryItem → Bool
  | [] => false
  | history :: rest =>
    if history.id = clickerID then true else GetState.alreadyProvisioned clickerID rest

/-- Second loop of `GetStateMethodHandler`, over the connected clickers. -/
def GetState.connectedLoop (r : Registry) (historyItems : List HistoryItem)
    (selClickerId : Int) : List Int → List ClickerEntry
  | [] => []
  | id :: rest =>
    match clicker_AcquireOwnership r id with
    | none => GetState.connectedLoop r historyItems selClickerId rest
    | some clk =>
      if GetState.alreadyProvisioned clk.clickerID historyItems then
        GetState.connectedLoop r historyItems selClickerId rest
      else
        { id := clk.clickerID, name := clk.name,
          selected := decide (clk.clickerID = selClickerId),
          inProvisionState := clk.provisioningInProgress,
          isProvisioned := false,
          isError := decide (clk.error > 0) }
          :: GetState.connectedLoop r historyItems selClickerId rest

/-- The `clickers` array built by `GetStateMethodHandler` from the history
items, the connected clickers, the registry and the selected id. -/
def GetState.reply (historyItems : List HistoryItem) (connectedClickers : List Int)
    (r : Registry) (selClickerId : Int) : List ClickerEntry :=
  GetState.historyLoop historyItems
    ++ GetState.connectedLoop r historyItems selClickerId connectedClickers

/-- Model of `GetStateMethodHandler`: the reply sent and the status returned;
`none` stands for a read outside the array in `controls_GetSelectedClickerId`. -/
def GetStateMethodHandler (c : Controls) (r : Registry) (historyItems : List HistoryItem) :
    Option (List ClickerEntry × Nat) :=
  match controls_GetSelectedClickerId c with
  | none => none
  | some selClickerId =>
    some (GetState.reply historyItems (controls_GetAllClickersIds c) r selClickerId,
          UBUS_STATUS_OK)

/-- Number of bytes `strlcpy(dst, src, size)` stores in `dst`, the terminating
NUL included: at most `size - 1` characters and the terminator, nothing when
`size` is 0. -/
def strlcpy.written (src : String) (size : Nat) : Nat :=
  if size = 0 then 0 else min src.length (size - 1) + 1

/-- The C string `strlcpy(dst, src, size)` leaves in `dst` (for `size > 0`). -/
def strlcpy.stored (src : String) (size : Nat) : String :=
  String.mk (src.data.take (size - 1))

/-- What the name replacement of `SetClickerNameMethodHandler` does with memory:
the size passed to `g_malloc`, the bytes `strlcpy` writes into the new buffer,
and the string the buffer holds afterwards. -/
structure NameBuffer where
  allocated : Nat
  written : Nat
  stored : String
  deriving DecidableEq, Repr

/-- Lines 183-186 of `ubus_agent.c`; `maxLen` is `COMMAND_ENDPOINT_NAME_LENGTH`
(defined in `commands.h`, not among the sources). -/
def SetClickerName.replaceName (maxLen : Nat) (clickerName : String) : NameBuffer :=
  let size := clickerName.length
  let size := if size > maxLen then maxLen else size
  { allocated := size,
    written := strlcpy.written clickerName maxLen,
    stored := strlcpy.stored clickerName maxLen }

/-- Model of `SetClickerNameMethodHandler`.  The arguments are the parsed
`clickerID` and `clickerName` attributes (`none` when absent).  Result: the
registry, the status returned, and the buffer written when a name was stored.
A write past the end of the new buffer is not a separate outcome: it shows as
`written > allocated` in the `NameBuffer` (for the empty name `allocated` is 0,
where `g_malloc` returns `NULL`, and `written` is 1 when `maxLen > 0`), and the status and the
registry are those of a run that this write does not end. -/
def SetClickerNameMethodHandler (maxLen : Nat) (r : Registry)
    (argClickerID : Option Nat) (argClickerName : Option String) :
    Registry × Nat × Option NameBuffer :=
  match argClickerID with
  | none => (r, 1, none)
  | some u =>
    let clickerID := toInt u
    match clicker_AcquireOwnership r clickerID with
    | none => (r, UBUS_STATUS_NO_DATA, none)
    | some _ =>
      match argClickerName with
      | none => (r, UBUS_STATUS_NO_DATA, none)
      | some clickerName =>
        let buf := SetClickerName.replaceName maxLen clickerName
        (Registry.write (fun k => { k with name := buf.stored }) clickerID r,
         UBUS_STATUS_OK, some buf)

/-- The states a run of create and destroy events can reach: nothing selected
and no clicker, or the first clicker selected. -/
def FirstOrNone (c : Controls) : Prop :=
  (c.selectedClickerIndex = -1 ∧ c.connectedClickersId = []) ∨
  (c.selectedClickerIndex = 0 ∧ c.connectedClickersId ≠ [])

/-- The reply of `getState` in the words of the specification: first one entry
per history item, in order, then one entry per connected id, in order, whose
record is found in the registry and whose id is not in the history. -/
def specGetStateReply (H : List HistoryItem) (C : List Int) (R : Registry) (s : Int) :
    List ClickerEntry :=
  H.map (fun h =>
      { id := h.id, name := h.name, selected := false, inProvisionState := false,
        isProvisioned := true, isError := h.isErrored })
    ++ C.filterMap (fun id =>
      match clicker_AcquireOwnership R id with
      | none => none
      | some clk =>
        if id ∈ H.map (fun h => h.id) then none
        else some
          { id := id, name := clk.name, selected := decide (id = s),
            inProvisionState := clk.provisioningInProgress, isProvisioned := false,
            isError := decide (clk.error > 0) })

/-! ## RPC handlers `select` and `startProvision` (`ubus_agent.c`) -/

/-- Model of `SelectMethodHandler`; the argument is the parsed `clickerID`
attribute (`none` when absent).  The `uint32_t` id is passed to
`event_PushEventWithInt`, which takes an `int`. -/
def SelectMethodHandler (argClickerID : Option Nat) : List Pushed × Nat :=
  match argClickerID with
  | none => ([], UBUS_STATUS_NO_DATA)
  | some u => ([Pushed.withInt EventType.CLICKER_SELECT (toInt u)], UBUS_STATUS_OK)

/-- Model of `StartProvisionMethodHandler`.  The local `clickerId` is a
`uint32_t`: the `int` returned by `controls_GetSelectedClickerId` is converted
to it, and it is converted back to `int` by `event_PushEventWithInt`.  `none`
stands for a read outside the array in `controls_GetSelectedClickerId`. -/
def StartProvisionMethodHandler (c : Controls) (argClickerID : Option Nat) :
    Option (List Pushed × Nat) :=
  match argClickerID with
  | some u =>
    some ([Pushed.withInt EventType.CLICKER_START_PROVISION (toInt u)], UBUS_STATUS_OK)
  | none =>
    match controls_GetSelectedClickerId c with
    | none => none
    | some sel =>
      some ([Pushed.withInt EventType.CLICKER_START_PROVISION (toInt (toUInt sel))],
            UBUS_STATUS_OK)

/-! ## Asynchronous credential requests (`ubus_agent.c`) -/

/-- One `UBusMemoryBlock` of the collection `_UBusRequestMemory`: `addr` is the
pointer stored in the list node, `clickerId` and `toDelete` are the fields of
the object it points to (the bus request and the reply buffer are opaque). -/
structure UBusMemoryBlock where
  addr : Nat
  clickerId : Int
  toDelete : Bool
  deriving DecidableEq, Repr

/-- Model of GLib `g_slist_remove (list, data)`: the first node whose data
pointer is `data` is removed; without such a node the list is unchanged. -/
def g_slist_remove : List UBusMemoryBlock → Nat → List UBusMemoryBlock
  | [], _ => []
  | b :: rest, data => if b.addr = data then rest else b :: g_slist_remove rest data

/-- Model of `CreateUBusMemoryBlock`: a zero-filled object at the fresh address
`p` is prepended to the collection. -/
def CreateUBusMemoryBlock (mem : List UBusMemoryBlock) (p : Nat) : List UBusMemoryBlock :=
  { addr := p, clickerId := 0, toDelete := false } :: mem

/-- Model of `ReleaseUBusMemoryBlock (block)`, `p` being the pointer `block`. -/
def ReleaseUBusMemoryBlock (mem : List UBusMemoryBlock) (p : Nat) : List UBusMemoryBlock :=
  g_slist_remove mem p

/-- The assignment `block->toDelete = true` through the pointer `p`, seen from
the collection. -/
def markToDelete (p : Nat) (mem : List UBusMemoryBlock) : List UBusMemoryBlock :=
  mem.map (fun b => if b.addr = p then { b with toDelete := true } else b)

/-- The attributes `blobmsg_parse` finds in a `generatePsk` reply (`none` when
an attribute is absent). -/
structure GeneratePskReply where
  id : Option Nat
  pskIdentity : Option String
  pskSecret : Option String
  error : Option String
  deriving DecidableEq, Repr

/-- The event data right after `g_new0 (PreSharedKey, 1)` and the assignment of
`clickerId`: an empty credential. -/
def emptyPreSharedKey (clickerId : Int) : PreSharedKey :=
  { clickerId := clickerId, identity := "", identityLen := 0, psk := "", pskLen := 0 }

/-- Model of `GeneratePskResponseHandler`.  `block` is the object `req->priv`
points to, `PSK_ARRAYS_SIZE` the constant of that name (its header is not
among the sources).  The local `char *identity` has no initialiser:
`identityInit` is the value it holds when the reply has no `pskIdentity`
attribute (`none` for a null pointer, `some g` for a pointer to the C string
`g`).  Result: the collection and the events pushed. -/
def GeneratePskResponseHandler (PSK_ARRAYS_SIZE : Nat) (mem : List UBusMemoryBlock)
    (block : UBusMemoryBlock) (msg : GeneratePskReply) (identityInit : Option String) :
    List UBusMemoryBlock × List Pushed :=
  match msg.error with
  | some _ =>
    (markToDelete block.addr mem, [Pushed.pskObtained (emptyPreSharedKey block.clickerId)])
  | none =>
    match msg.pskSecret with
    | none =>
      (markToDelete block.addr mem, [Pushed.pskObtained (emptyPreSharedKey block.clickerId)])
    | some psk =>
      let identity : Option String :=
        match msg.pskIdentity with
        | some s => some s
        | none => identityInit
      match identity with
      | none =>
        (markToDelete block.addr mem,
         [Pushed.pskObtained (emptyPreSharedKey block.clickerId)])
      | some identity =>
        (markToDelete block.addr mem,
         [Pushed.pskObtained
            { clickerId := block.clickerId,
              identity := strlcpy.stored identity PSK_ARRAYS_SIZE,
              identityLen :=
                if identity.length > PSK_ARRAYS_SIZE then PSK_ARRAYS_SIZE else identity.length,
              psk := strlcpy.stored psk PSK_ARRAYS_SIZE,
              pskLen := if psk.length > PSK_ARRAYS_SIZE then PSK_ARRAYS_SIZE else psk.length }])

/-- File-static state of `ubus_agent.c` shared by the two threads, with the
`uloop_cancelled` flag of libubox. -/
structure UBusAgent where
  UBusRunning : Bool
  UBusInterruption : Bool
  UBusInInterState : Bool
  uloop_cancelled : Bool
  UBusRequestMemory : List UBusMemoryBlock
  deriving DecidableEq, Repr

/-- Model of `SetUBusRunning`. -/
def SetUBusRunning (a : UBusAgent) (state : Bool) : UBusAgent :=
  { a with UBusRunning := state }

/-- Model of `SetUBusLoopInterruption`. -/
def SetUBusLoopInterruption (a : UBusAgent) (state : Bool) : UBusAgent :=
  { a with UBusInterruption := state, uloop_cancelled := state }

/-- Model of `WaitForInterruptState`, as seen by the calling thread: `observed`
lists the values of `_UBusInInterState` the successive polls read (the flag is
written by the loop thread).  The result is the number of polls made when one
of them reads `true`, `none` when none of the listed polls does. -/
def WaitForInterruptState : List Bool → Option Nat
  | [] => none
  | ok :: later =>
    if ok then some 1
    else
      match WaitForInterruptState later with
      | none => none
      | some n => some (n + 1)

/-- A call into libubus made by the agent. -/
inductive BusCall where
  | lookup_id (path : String)
  | invoke_async (id : Nat) (method : String) (block : Nat)
  | complete_request_async (block : Nat)
  deriving DecidableEq, Repr

/-- Model of `ubusagent_SendGeneratePskMessage`, as executed by the calling
thread.  `lookupRet` and `id` are the result of `ubus_lookup_id`, `invokeRet`
the result of `ubus_invoke_async`, `p` the address `g_malloc0` returns.
Result: the agent state, the bus calls made, the events pushed (the function
has no `event_Push...` call) and the value returned; `none` when the wait does
not end within the listed polls. -/
def ubusagent_SendGeneratePskMessage (a : UBusAgent) (observed : List Bool)
    (lookupRet id invokeRet p : Nat) (clickerId : Int) :
    Option (UBusAgent × List BusCall × List Pushed × Bool) :=
  let a1 := SetUBusLoopInterruption a true
  match WaitForInterruptState observed with
  | none => none
  | some _ =>
    if lookupRet ≠ 0 then
      some (SetUBusLoopInterruption a1 false, [BusCall.lookup_id "creator"], [], false)
    else
      let mem := CreateUBusMemoryBlock a1.UBusRequestMemory p
      let mem := mem.map (fun b => if b.addr = p then { b with clickerId := clickerId } else b)
      let a2 : UBusAgent := { a1 with UBusRequestMemory := mem }
      let calls := [BusCall.lookup_id "creator", BusCall.invoke_async id "generatePsk" p,
                    BusCall.complete_request_async p]
      if invokeRet ≠ 0 then some (SetUBusLoopInterruption a2 false, calls, [], false)
      else some (SetUBusLoopInterruption a2 false, calls, [], true)

/-- The housekeeping step of one iteration of `PDUbusLoop` (lines 406-412):
the object released, if any, and the collection afterwards. -/
def PDUbusLoop.housekeeping (mem : List UBusMemoryBlock) :
    Option UBusMemoryBlock × List UBusMemoryBlock :=
  match mem with
  | [] => (none, [])
  | block :: rest =>
    if block.toDelete then (some block, ReleaseUBusMemoryBlock (block :: rest) block.addr)
    else (none, block :: rest)

/-- The `while (_UBusRequestMemory != NULL)` loop of `ubusagent_Destroy`, run for
at most `fuel` tests of its condition: the objects released, in order, and the
collection when the loop has ended; `none` when the loop is still running
after `fuel` tests. -/
def ubusagent_Destroy.sweep : Nat → List UBusMemoryBlock →
    Option (List UBusMemoryBlock × List UBusMemoryBlock)
  | 0, _ => none
  | _ + 1, [] => some ([], [])
  | fuel + 1, block :: rest =>
    if block.toDelete then
      match ubusagent_Destroy.sweep fuel (ReleaseUBusMemoryBlock (block :: rest) block.addr) with
      | none => none
      | some (released, mem) => some (block :: released, mem)
    else ubusagent_Destroy.sweep fuel (block :: rest)

/-- Model of `ubusagent_Destroy`: the flags are cleared, then the sweep runs. -/
def ubusagent_Destroy (fuel : Nat) (a : UBusAgent) :
    Option (UBusAgent × List UBusMemoryBlock) :=
  let a1 := SetUBusRunning (SetUBusLoopInterruption a false) false
  match ubusagent_Destroy.sweep fuel a1.UBusRequestMemory with
  | none => none
  | some (released, mem) => some ({ a1 with UBusRequestMemory := mem }, released)

/-! ## Indicator update and watchdog (`controls.c`) -/

/-- Blink interval while the selected clicker is not being provisioned. -/
def LED_SLOW_BLINK_INTERVAL_MS : Nat := 500

/-- Blink interval while the selected clicker is being provisioned. -/
def LED_FAST_BLINK_INTERVAL_MS : Nat := 100

/-- Milliseconds after which a provisioned clicker is disconnected. -/
def TIME_TO_DISCONNECT_AFTER_PROVISION : Nat := 3000

/-- Difference `a - b` of two `unsigned long` values, `M` being the number of
values of that type (`2 ^ 32` or `2 ^ 64`). -/
def ulongSub (M a b : Nat) : Nat := (a + M - b) % M

/-- The blink statics of `controls.c`: `g_activeLedOn` and `_LastBlinkTime`. -/
structure Blink where
  activeLedOn : Bool
  LastBlinkTime : Nat
  deriving DecidableEq, Repr

/-- A call into the LED driver. -/
inductive LedCall where
  | led_release
  | led_init
  | led_set (mask : Nat)
  deriving DecidableEq, Repr

/-- The loop `for (i = 0; i < len; i++) mask |= 1 << i` of `SetLeds` on the
`uint8_t` mask, as a function of `len`. -/
def SetLeds.maskLoop : Nat → Nat
  | 0 => 0
  | i + 1 => (SetLeds.maskLoop i ||| (1 <<< i)) % 256

/-- Model of `SetLeds`: the driver calls it makes. -/
def SetLeds (c : Controls) (activeLedOn : Bool) : List LedCall :=
  if c.connectedClickersId.length = 0 then [LedCall.led_release]
  else
    let mask := SetLeds.maskLoop c.connectedClickersId.length
    let mask :=
      if c.selectedClickerIndex ≥ 0 ∧ c.selectedClickerIndex < 8 ∧ activeLedOn = true then
        (mask ^^^ (1 <<< c.selectedClickerIndex.toNat)) % 256
      else mask
    [LedCall.led_init, LedCall.led_set mask]

/-- Loop of `CheckForFinishedProvisionings`: the ids passed to `con_Disconnect`,
in order.  `t` is the loop counter and `clock t` the value `GetCurrentTimeMillis`
returns in iteration `t`. -/
def CheckForFinishedProvisionings.loop (M : Nat) (r : Registry) (clock : Nat → Nat) :
    Nat → List Int → List Int
  | _, [] => []
  | t, clickerId :: rest =>
    match clicker_AcquireOwnership r clickerId with
    | none => CheckForFinishedProvisionings.loop M r clock (t + 1) rest
    | some clicker =>
      if clicker.provisionTime > 0 then
        if ulongSub M (clock t) clicker.provisionTime > TIME_TO_DISCONNECT_AFTER_PROVISION then
          clicker.clickerID :: CheckForFinishedProvisionings.loop M r clock (t + 1) rest
        else CheckForFinishedProvisionings.loop M r clock (t + 1) rest
      else CheckForFinishedProvisionings.loop M r clock (t + 1) rest

/-- Model of `CheckForFinishedProvisionings`. -/
def CheckForFinishedProvisionings (M : Nat) (c : Controls) (r : Registry)
    (clock : Nat → Nat) : List Int :=
  CheckForFinishedProvisionings.loop M r clock 0 c.connectedClickersId

/-- Model of `controls_Update`: the blink statics, the LED driver calls and the
ids disconnected.  `now` is the clock value read for the blink test, `clock`
the values read by the watchdog; `none` stands for a read outside the array in
`controls_GetSelectedClickerId`. -/
def controls_Update (M : Nat) (c : Controls) (b : Blink) (r : Registry) (now : Nat)
    (clock : Nat → Nat) : Option (Blink × List LedCall × List Int) :=
  match controls_GetSelectedClickerId c with
  | none => none
  | some clickerId =>
    match clicker_AcquireOwnership r clickerId with
    | none => some (b, [], [])
    | some clicker =>
      let interval :=
        if clicker.provisioningInProgress then LED_FAST_BLINK_INTERVAL_MS
        else LED_SLOW_BLINK_INTERVAL_MS
      let b1 : Blink :=
        if ulongSub M now b.LastBlinkTime > interval then
          { activeLedOn := !b.activeLedOn, LastBlinkTime := now }
        else b
      some (b1, SetLeds c b1.activeLedOn, CheckForFinishedProvisionings M c r clock)

/-- Whether the watchdog is to disconnect the clicker `id`, in the words of the
specification: its record is found, its provisioning-completion timestamp is
set, and `age` of that timestamp exceeds 3000 ms. -/
def specDisconnectDue (r : Registry) (age : Nat → Nat) (id : Int) : Bool :=
  match clicker_AcquireOwnership r id with
  | none => false
  | some clicker => decide (clicker.provisionTime > 0 ∧ age clicker.provisionTime > 3000)

/-- The ids carried by the device-created events of a run, in the order of the
events. -/
def createdIds (events : List Event) : List Int :=
  (events.filter (fun e => decide (e.type = EventType.CLICKER_CREATE))).map
    (fun e => e.intData)

/-- Whether no device-created event of the run carries an id that is in the
connected-device sequence at the moment the event is consumed, the run
starting in state `c`. -/
def createsAreFresh : Controls → List Event → Bool
  | _, [] => true
  | c, e :: rest =>
    (if e.type = EventType.CLICKER_CREATE then decide (e.intData ∉ c.connectedClickersId)
     else true)
      && createsAreFresh (controls_ConsumeEvent c e).1 rest

/-! ## The array reads of the `LOG` lines (`controls.c`) -/

/-- Model of a read through the GLib macro `g_array_index (a, int, index)`,
which expands to `((int*) a->data)[index]`: `none` when the index is outside
the array. -/
def g_array_index (a : List Int) (index : Int) : Option Int :=
  if index < 0 then none else a[index.toNat]?

/-- Model of `SelectNextClickerCallback` with the read of its `LOG` line
(controls.c:68).  `logInfo` says whether `LOG (LOG_INFO, ...)` evaluates its
arguments (the macro is defined in `log.h`, which is not among the sources).
The read is made after the cursor update and before `UpdateHighlights`;
`none` stands for a read outside the array. -/
def SelectNextClickerCallback.withLog (logInfo : Bool) (c : Controls) :
    Option (Controls × List Pushed) :=
  let incremented := toInt (toUInt (c.selectedClickerIndex + 1))
  let len := c.connectedClickersId.length
  let idx := if toUInt incremented ≥ len then lenMinusOne len else incremented
  let c1 : Controls := { c with selectedClickerIndex := idx }
  if logInfo then
    match g_array_index c.connectedClickersId idx with
    | none => none
    | some _ => some (c1, UpdateHighlights c1)
  else some (c1, UpdateHighlights c1)

/-- Model of `RemoveClickerWithID` with the read of its `LOG` line
(controls.c:190), which sits in the branch that clamps the cursor; `none`
stands for a read outside the array. -/
def RemoveClickerWithID.withLog (logInfo : Bool) (c : Controls) (clickerID : Int) :
    Option Controls :=
  let foundIndex : Nat := (findLoop clickerID 0 c.connectedClickersId).getD 4294967295
  if foundIndex ≥ 0 then
    let arr := g_array_remove_index c.connectedClickersId foundIndex
    if toUInt c.selectedClickerIndex ≥ arr.length then
      let c1 : Controls :=
        { connectedClickersId := arr, selectedClickerIndex := lenMinusOne arr.length }
      if logInfo then
        match g_array_index arr (lenMinusOne arr.length) with
        | none => none
        | some _ => some c1
      else some c1
    else
      some { connectedClickersId := arr, selectedClickerIndex := c.selectedClickerIndex }
  else some c

/-- Model of `controls_ConsumeEvent` with the reads of the `LOG` lines
(controls.c:225 in the device-created case, controls.c:190 through
`RemoveClickerWithID`); `none` stands for a read outside the array. -/
def controls_ConsumeEvent.withLog (logInfo : Bool) (c : Controls) (event : Event) :
    Option (Controls × List Pushed × Bool) :=
  match event.type with
  | EventType.CLICKER_CREATE =>
    let arr := c.connectedClickersId ++ [event.intData]
    if c.selectedClickerIndex = -1 then
      let c1 : Controls := { connectedClickersId := arr, selectedClickerIndex := 0 }
      if logInfo then
        match g_array_index arr 0 with
        | none => none
        | some _ => some (c1, UpdateHighlights c1, true)
      else some (c1, UpdateHighlights c1, true)
    else
      let c1 : Controls :=
        { connectedClickersId := arr, selectedClickerIndex := c.selectedClickerIndex }
      some (c1, UpdateHighlights c1, true)
  | EventType.CLICKER_DESTROY =>
    match RemoveClickerWithID.withLog logInfo c event.intData with
    | none => none
    | some c1 => some (c1, UpdateHighlights c1, true)
  | EventType.CLICKER_SELECT =>
    let c1 := SelectClickerWithId c event.intData
    some (c1, UpdateHighlights c1, true)
  | _ => some (c, [], false)

/-- State after feeding a list of events to `controls_ConsumeEvent.withLog`, one
by one; `none` as soon as one of them reads outside the array. -/
def runEvents.withLog (logInfo : Bool) : Controls → List Event → Option Controls
  | c, [] => some c
  | c, e :: rest =>
    match controls_ConsumeEvent.withLog logInfo c e with
    | none => none
    | some r => runEvents.withLog logInfo r.1 rest

/-! # Theorems -/

/-! ## Lemmas on machine integers -/

theorem toUInt_neg_one : toUInt (-1) = 4294967295 := by decide

theorem toUInt_zero : toUInt 0 = 0 := by decide

theorem lenMinusOne_zero : lenMinusOne 0 = -1 := by decide

theorem toUInt_of_range {x : Int} (h0 : 0 ≤ x) (h1 : x < 4294967296) :
    toUInt x = x.toNat := by
  unfold toUInt
  rw [Int.emod_eq_of_lt h0 h1]

theorem toInt_of_lt {n : Nat} (h : n < 2147483648) : toInt n = (n : Int) := by
  unfold toInt
  have h1 : n % 4294967296 = n := Nat.mod_eq_of_lt (by omega)
  rw [h1, if_pos h]

theorem lenMinusOne_of_range {len : Nat} (h : len ≤ 2147483648) :
    lenMinusOne len = (len : Int) - 1 := by
  unfold lenMinusOne toInt
  rcases Nat.eq_zero_or_pos len with h0 | h0
  · subst h0; decide
  · have h1 : (len + 4294967296 - 1) % 4294967296 = len - 1 := by omega
    rw [h1, if_pos (by omega)]
    omega

theorem toInt_toUInt_of_range {x : Int} (h0 : 0 ≤ x) (h1 : x < 2147483648) :
    toInt (toUInt x) = x := by
  rw [toUInt_of_range h0 (by omega), toInt_of_lt (by omega)]
  omega

/-! ## Lemmas on the search loop and on removal -/

theorem findLoop_none_iff (clickerID : Int) (l : List Int) :
    ∀ t, findLoop clickerID t l = none ↔ clickerID ∉ l := by
  induction l with
  | nil => intro t; simp [findLoop]
  | cons x rest ih =>
    intro t
    by_cases hx : x = clickerID
    · simp [findLoop, hx]
    · have hx2 : ¬ clickerID = x := fun h => hx h.symm
      simp [findLoop, hx, hx2, ih (t + 1)]

theorem findLoop_some (clickerID : Int) (l : List Int) :
    ∀ t j, findLoop clickerID t l = some j →
      t ≤ j ∧ j - t < l.length ∧ l[j - t]? = some clickerID ∧
      l.eraseIdx (j - t) = l.erase clickerID := by
  induction l with
  | nil => intro t j h; simp [findLoop] at h
  | cons x rest ih =>
    intro t j h
    by_cases hx : x = clickerID
    · simp [findLoop, hx] at h
      subst h
      simp [hx]
    · simp only [findLoop, if_neg hx] at h
      obtain ⟨h1, h2, h3, h4⟩ := ih (t + 1) j h
      have hj : j - t = (j - (t + 1)) + 1 := by omega
      refine ⟨by omega, ?_, ?_, ?_⟩
      · simp only [List.length_cons]; omega
      · rw [hj, List.getElem?_cons_succ]; exact h3
      · rw [hj, List.eraseIdx_cons_succ, h4, List.erase_cons]
        have : (x == clickerID) = false := by simpa using hx
        simp [this]

theorem erase_eq_filter_ne {l : List Int} (h : l.Nodup) (a : Int) :
    l.erase a = l.filter (fun x => decide (x ≠ a)) := by
  rw [h.erase_eq_filter]
  congr 1
  funext x
  by_cases hx : x = a <;> simp [hx]

theorem filter_ne_of_not_mem {l : List Int} {a : Int} (h : a ∉ l) :
    l.filter (fun x => decide (x ≠ a)) = l := by
  rw [List.filter_eq_self]
  intro x hx
  have : x ≠ a := fun e => h (e ▸ hx)
  simpa using this

/-- The array after the search and the `g_array_remove_index` call of
`RemoveClickerWithID`, for an array without duplicates that fits a `guint`. -/
theorem remove_found_eq_filter {l : List Int} (hnd : l.Nodup)
    (hlen : l.length ≤ 4294967295) (clickerID : Int) :
    g_array_remove_index l ((findLoop clickerID 0 l).getD 4294967295)
      = l.filter (fun x => decide (x ≠ clickerID)) := by
  cases hf : findLoop clickerID 0 l with
  | none =>
    have hnot := (findLoop_none_iff clickerID l 0).1 hf
    simp only [Option.getD_none, g_array_remove_index]
    rw [if_neg (by omega), filter_ne_of_not_mem hnot]
  | some j =>
    obtain ⟨_, h2, _, h4⟩ := findLoop_some clickerID l 0 j hf
    simp only [Option.getD_some, g_array_remove_index]
    simp only [Nat.sub_zero] at h2 h4
    rw [if_pos h2, h4, erase_eq_filter_ne hnd]

/-! ## The cursor invariant under create and destroy events -/

theorem FirstOrNone.cursorInv {c : Controls} (h : FirstOrNone c) : CursorInv c := by
  rcases c with ⟨ids, idx⟩
  rcases h with ⟨h1, h2⟩ | ⟨h1, h2⟩
  · simp only at h1 h2
    subst h1 h2
    decide
  · simp only at h1 h2
    subst h1
    have hpos : 0 < ids.length := List.length_pos.2 h2
    refine ⟨by simp, ?_, ?_⟩
    · simp only; omega
    · simp only
      constructor
      · intro h; exact absurd h (by decide)
      · intro h; omega

theorem FirstOrNone.create {c : Controls} (h : FirstOrNone c) (id : Int) :
    FirstOrNone (controls_ConsumeEvent c ⟨EventType.CLICKER_CREATE, id⟩).1 := by
  right
  rcases h with ⟨h1, _⟩ | ⟨h1, _⟩ <;> simp [controls_ConsumeEvent, h1]

theorem FirstOrNone.destroy {c : Controls} (h : FirstOrNone c) (id : Int) :
    FirstOrNone (controls_ConsumeEvent c ⟨EventType.CLICKER_DESTROY, id⟩).1 := by
  rcases c with ⟨ids, idx⟩
  rcases h with ⟨h1, h2⟩ | ⟨h1, h2⟩
  · simp only at h1 h2
    subst h1 h2
    left
    simp [controls_ConsumeEvent, RemoveClickerWithID, findLoop, g_array_remove_index,
      toUInt_neg_one, lenMinusOne_zero]
  · simp only at h1 h2
    subst h1
    simp only [controls_ConsumeEvent, RemoveClickerWithID, ge_iff_le, Nat.zero_le, if_true,
      toUInt_zero, Nat.le_zero]
    split
    · rename_i hlen
      left
      refine ⟨?_, List.length_eq_zero.1 hlen⟩
      rw [hlen]
      exact lenMinusOne_zero
    · rename_i hlen
      right
      refine ⟨rfl, ?_⟩
      intro hnil
      exact hlen (List.length_eq_zero.2 hnil)

theorem FirstOrNone.runEvents (events : List Event) :
    ∀ c, FirstOrNone c →
      (∀ e ∈ events, e.type = EventType.CLICKER_CREATE ∨ e.type = EventType.CLICKER_DESTROY) →
      FirstOrNone (runEvents c events) := by
  induction events with
  | nil => intro c h _; exact h
  | cons e rest ih =>
    intro c h hall
    have he := hall e (List.mem_cons_self e rest)
    have hrest : ∀ x ∈ rest,
        x.type = EventType.CLICKER_CREATE ∨ x.type = EventType.CLICKER_DESTROY :=
      fun x hx => hall x (List.mem_cons_of_mem e hx)
    have hstep : FirstOrNone (controls_ConsumeEvent c e).1 := by
      rcases e with ⟨ty, n⟩
      rcases he with he | he
      · simp only at he; subst he; exact h.create n
      · simp only at he; subst he; exact h.destroy n
    exact ih _ hstep hrest

/-- C1: starting from the initial controller state (empty sequence, cursor -1),
after every event of any finite run of device-created and device-destroyed
events (that is, after each initial segment `events.take n` of the run) the
cursor `c` and the length `count` satisfy `-1 ≤ c ≤ count - 1`, and `c = -1`
exactly when `count = 0`. -/
theorem C1_cursor_invariant_create_destroy (events : List Event)
    (hkinds : ∀ e ∈ events,
      e.type = EventType.CLICKER_CREATE ∨ e.type = EventType.CLICKER_DESTROY)
    (n : Nat) :
    initialControls = { connectedClickersId := [], selectedClickerIndex := -1 } ∧
    -1 ≤ (runEvents initialControls (events.take n)).selectedClickerIndex ∧
    (runEvents initialControls (events.take n)).selectedClickerIndex
      ≤ ((runEvents initialControls (events.take n)).connectedClickersId.length : Int) - 1 ∧
    ((runEvents initialControls (events.take n)).selectedClickerIndex = -1
      ↔ (runEvents initialControls (events.take n)).connectedClickersId.length = 0) := by
  have h0 : FirstOrNone initialControls := Or.inl ⟨rfl, rfl⟩
  have hsub : ∀ e ∈ events.take n,
      e.type = EventType.CLICKER_CREATE ∨ e.type = EventType.CLICKER_DESTROY :=
    fun e he => hkinds e (List.mem_of_mem_take he)
  exact ⟨rfl, (FirstOrNone.runEvents (events.take n) initialControls h0 hsub).cursorInv⟩

/-- Witness of C1 on the run create(7), create(9), destroy(7), destroy(5), destroy(9). -/
theorem C1_cursor_invariant_create_destroy_witness :
    (∀ e ∈ [Event.mk EventType.CLICKER_CREATE 7, Event.mk EventType.CLICKER_CREATE 9,
            Event.mk EventType.CLICKER_DESTROY 7, Event.mk EventType.CLICKER_DESTROY 5,
            Event.mk EventType.CLICKER_DESTROY 9],
      e.type = EventType.CLICKER_CREATE ∨ e.type = EventType.CLICKER_DESTROY) ∧
    (runEvents initialControls
      ([Event.mk EventType.CLICKER_CREATE 7, Event.mk EventType.CLICKER_CREATE 9,
        Event.mk EventType.CLICKER_DESTROY 7, Event.mk EventType.CLICKER_DESTROY 5,
        Event.mk EventType.CLICKER_DESTROY 9].take 4)).selectedClickerIndex
      ≤ ((runEvents initialControls
      ([Event.mk EventType.CLICKER_CREATE 7, Event.mk EventType.CLICKER_CREATE 9,
        Event.mk EventType.CLICKER_DESTROY 7, Event.mk EventType.CLICKER_DESTROY 5,
        Event.mk EventType.CLICKER_DESTROY 9].take 4)).connectedClickersId.length : Int) - 1 :=
  ⟨by decide,
   (C1_cursor_invariant_create_destroy
      [Event.mk EventType.CLICKER_CREATE 7, Event.mk EventType.CLICKER_CREATE 9,
       Event.mk EventType.CLICKER_DESTROY 7, Event.mk EventType.CLICKER_DESTROY 5,
       Event.mk EventType.CLICKER_DESTROY 9] (by decide) 4).2.2.1⟩

/-! ## Device-created events -/

/-- C2: `consumeEvent(device-created(id))` returns true and appends `id` at the
end of the sequence; a sentinel cursor becomes 0, so that from the empty state
the created device is the selected one; any other cursor is kept, and when a
device was selected (cursor a valid index) the selected id is the same as
before. -/
theorem C2_create_appends_and_selects_first (c : Controls) (id : Int) :
    (controls_ConsumeEvent c ⟨EventType.CLICKER_CREATE, id⟩).2.2 = true ∧
    (controls_ConsumeEvent c ⟨EventType.CLICKER_CREATE, id⟩).1.connectedClickersId
      = c.connectedClickersId ++ [id] ∧
    (c.selectedClickerIndex = -1 →
      (controls_ConsumeEvent c ⟨EventType.CLICKER_CREATE, id⟩).1.selectedClickerIndex = 0) ∧
    (c.selectedClickerIndex = -1 → c.connectedClickersId = [] →
      controls_GetSelectedClickerId (controls_ConsumeEvent c ⟨EventType.CLICKER_CREATE, id⟩).1
        = some id) ∧
    (c.selectedClickerIndex ≠ -1 →
      (controls_ConsumeEvent c ⟨EventType.CLICKER_CREATE, id⟩).1.selectedClickerIndex
        = c.selectedClickerIndex) ∧
    (0 ≤ c.selectedClickerIndex →
      c.selectedClickerIndex < (c.connectedClickersId.length : Int) →
      controls_GetSelectedClickerId (controls_ConsumeEvent c ⟨EventType.CLICKER_CREATE, id⟩).1
        = controls_GetSelectedClickerId c ∧
      controls_GetSelectedClickerId c
        = c.connectedClickersId[c.selectedClickerIndex.toNat]?) := by
  rcases c with ⟨ids, idx⟩
  refine ⟨rfl, rfl, ?_, ?_, ?_, ?_⟩
  · intro h
    simp only at h
    simp [controls_ConsumeEvent, h]
  · intro h hnil
    simp only at h hnil
    subst h hnil
    simp [controls_ConsumeEvent, controls_GetSelectedClickerId]
  · intro h
    simp only at h
    simp [controls_ConsumeEvent, h]
  · intro h0 h1
    simp only at h0 h1
    have hne : idx ≠ -1 := by omega
    have hlt : idx.toNat < ids.length := by omega
    have hnot : ¬ idx < 0 := by omega
    simp [controls_ConsumeEvent, controls_GetSelectedClickerId, hne, hnot,
      List.getElem?_append_left hlt]

/-- Witness of C2: create(9) with device 7 selected, and create(7) from the
empty state. -/
theorem C2_create_appends_and_selects_first_witness :
    controls_GetSelectedClickerId
        (controls_ConsumeEvent ⟨[7], 0⟩ ⟨EventType.CLICKER_CREATE, 9⟩).1
      = controls_GetSelectedClickerId ⟨[7], 0⟩ ∧
    controls_GetSelectedClickerId
        (controls_ConsumeEvent ⟨[], -1⟩ ⟨EventType.CLICKER_CREATE, 7⟩).1 = some 7 :=
  ⟨((C2_create_appends_and_selects_first ⟨[7], 0⟩ 9).2.2.2.2.2 (by decide) (by decide)).1,
   (C2_create_appends_and_selects_first ⟨[], -1⟩ 7).2.2.2.1 rfl rfl⟩

/-! ## `selectNext` -/

theorem clamp_eq_min {idx : Int} {n : Nat} (h0 : 0 ≤ idx) (h1 : idx < 2147483648)
    (hn : n ≤ 2147483648) (hpos : idx ≤ (n : Int)) :
    (if toUInt idx ≥ n then lenMinusOne n else idx) = min idx ((n : Int) - 1) := by
  rw [toUInt_of_range h0 (by omega), lenMinusOne_of_range hn]
  split <;> omega

/-- The state and events computed by `SelectNextClickerCallback` (the read of
its `LOG` line left aside) on a state that satisfies the cursor invariant: same
sequence, cursor `min (cursor + 1) (length - 1)`. -/
theorem selectNext_effect (c : Controls) (hinv : CursorInv c)
    (hlen : c.connectedClickersId.length < 2147483648) :
    (SelectNextClickerCallback c).1.connectedClickersId = c.connectedClickersId ∧
    (SelectNextClickerCallback c).1.selectedClickerIndex
      = min (c.selectedClickerIndex + 1) ((c.connectedClickersId.length : Int) - 1) ∧
    (SelectNextClickerCallback c).1.selectedClickerIndex
      ≤ (c.connectedClickersId.length : Int) - 1 ∧
    c.selectedClickerIndex ≤ (SelectNextClickerCallback c).1.selectedClickerIndex ∧
    (c.selectedClickerIndex = (c.connectedClickersId.length : Int) - 1 →
      (SelectNextClickerCallback c).1 = c) ∧
    (SelectNextClickerCallback (SelectNextClickerCallback c).1).1.selectedClickerIndex
      = min (c.selectedClickerIndex + 2) ((c.connectedClickersId.length : Int) - 1) ∧
    (c.connectedClickersId = [] → SelectNextClickerCallback c = (c, [])) := by
  rcases c with ⟨ids, idx⟩
  obtain ⟨h1, h2, h3⟩ := hinv
  simp only at h1 h2 h3 hlen
  have hinc : toInt (toUInt (idx + 1)) = idx + 1 :=
    toInt_toUInt_of_range (by omega) (by omega)
  have hidx : (SelectNextClickerCallback ⟨ids, idx⟩).1.selectedClickerIndex
      = min (idx + 1) ((ids.length : Int) - 1) := by
    simp only [SelectNextClickerCallback, hinc]
    exact clamp_eq_min (by omega) (by omega) (by omega) (by omega)
  have hids : (SelectNextClickerCallback ⟨ids, idx⟩).1.connectedClickersId = ids := rfl
  have hstate : (SelectNextClickerCallback ⟨ids, idx⟩).1
      = ⟨ids, min (idx + 1) ((ids.length : Int) - 1)⟩ := by
    rw [← hidx]
    rfl
  refine ⟨rfl, hidx, ?_, ?_, ?_, ?_, ?_⟩
  · rw [hidx]
    show min (idx + 1) ((ids.length : Int) - 1) ≤ (ids.length : Int) - 1
    omega
  · rw [hidx]
    show idx ≤ min (idx + 1) ((ids.length : Int) - 1)
    omega
  · intro hlast
    simp only at hlast
    rw [hstate]
    congr 1
    omega
  · have hinc2 : toInt (toUInt (min (idx + 1) ((ids.length : Int) - 1) + 1))
        = min (idx + 1) ((ids.length : Int) - 1) + 1 :=
      toInt_toUInt_of_range (by omega) (by omega)
    rw [hstate]
    simp only [SelectNextClickerCallback, hinc2]
    rw [clamp_eq_min (by omega) (by omega) (by omega) (by omega)]
    omega
  · intro hnil
    simp only at hnil
    subst hnil
    have hm : idx = -1 := h3.2 rfl
    subst hm
    decide

/-! ## Device-destroyed events -/

theorem clamp_after_remove {idx : Int} {n : Nat} (h0 : -1 ≤ idx) (h1 : idx < 2147483648)
    (hn : n ≤ 2147483648) (hsent : idx = -1 → n = 0) :
    (if toUInt idx ≥ n then lenMinusOne n else idx) = min idx ((n : Int) - 1) := by
  by_cases hm : idx = -1
  · have hz := hsent hm
    subst hm hz
    decide
  · rw [toUInt_of_range (by omega) (by omega), lenMinusOne_of_range hn]
    split <;> omega

/-- The state computed by `controls_ConsumeEvent` for a device-destroyed event
(the read of the `LOG` line of `RemoveClickerWithID` left aside) on a state with
a duplicate-free sequence that satisfies the cursor invariant: the sequence
without `id`, cursor `min (old cursor) (new length - 1)`. -/
theorem destroy_effect (c : Controls) (id : Int)
    (hnd : c.connectedClickersId.Nodup) (hinv : CursorInv c)
    (hlen : c.connectedClickersId.length < 2147483648) :
    (controls_ConsumeEvent c ⟨EventType.CLICKER_DESTROY, id⟩).2.2 = true ∧
    (controls_ConsumeEvent c ⟨EventType.CLICKER_DESTROY, id⟩).1.connectedClickersId
      = c.connectedClickersId.filter (fun x => decide (x ≠ id)) ∧
    (id ∈ c.connectedClickersId →
      (controls_ConsumeEvent c ⟨EventType.CLICKER_DESTROY, id⟩).1.connectedClickersId
        = c.connectedClickersId.erase id ∧
      (controls_ConsumeEvent c ⟨EventType.CLICKER_DESTROY, id⟩).1.connectedClickersId.length + 1
        = c.connectedClickersId.length) ∧
    (id ∉ c.connectedClickersId →
      (controls_ConsumeEvent c ⟨EventType.CLICKER_DESTROY, id⟩).1 = c) ∧
    (controls_ConsumeEvent c ⟨EventType.CLICKER_DESTROY, id⟩).1.selectedClickerIndex
      = min c.selectedClickerIndex
          (((controls_ConsumeEvent c
              ⟨EventType.CLICKER_DESTROY, id⟩).1.connectedClickersId.length : Int) - 1) ∧
    runEvents initialControls
        [⟨EventType.CLICKER_CREATE, 7⟩, ⟨EventType.CLICKER_CREATE, 9⟩,
         ⟨EventType.CLICKER_DESTROY, 7⟩]
      = { connectedClickersId := [9], selectedClickerIndex := 0 } ∧
    controls_GetSelectedClickerId (runEvents initialControls
        [⟨EventType.CLICKER_CREATE, 7⟩, ⟨EventType.CLICKER_CREATE, 9⟩,
         ⟨EventType.CLICKER_DESTROY, 7⟩]) = some 9 := by
  rcases c with ⟨ids, idx⟩
  obtain ⟨h1, h2, h3⟩ := hinv
  simp only at h1 h2 h3 hlen hnd
  have harr := remove_found_eq_filter hnd (by omega : ids.length ≤ 4294967295) id
  have hfl : (ids.filter (fun x => decide (x ≠ id))).length ≤ ids.length :=
    List.length_filter_le _ _
  have hstate : (controls_ConsumeEvent ⟨ids, idx⟩ ⟨EventType.CLICKER_DESTROY, id⟩).1
      = ⟨ids.filter (fun x => decide (x ≠ id)),
         min idx (((ids.filter (fun x => decide (x ≠ id))).length : Int) - 1)⟩ := by
    simp only [controls_ConsumeEvent, RemoveClickerWithID, ge_iff_le, Nat.zero_le, if_true,
      harr]
    have hc := @clamp_after_remove idx (ids.filter (fun x => decide (x ≠ id))).length
      h1 (by omega) (by omega) (fun hm => by have := h3.1 hm; omega)
    simp only [ge_iff_le] at hc
    split
    · rename_i hge
      rw [if_pos hge] at hc
      rw [hc]
    · rename_i hge
      rw [if_neg hge] at hc
      rw [← hc]
  refine ⟨rfl, ?_, ?_, ?_, ?_, by decide, by decide⟩
  · rw [hstate]
  · intro hmem
    simp only at hmem
    rw [hstate]
    refine ⟨(erase_eq_filter_ne hnd id).symm, ?_⟩
    show (ids.filter (fun x => decide (x ≠ id))).length + 1 = ids.length
    rw [← erase_eq_filter_ne hnd id, List.length_erase_of_mem hmem]
    have : 0 < ids.length := List.length_pos_of_mem hmem
    omega
  · intro hnot
    simp only at hnot
    rw [hstate]
    have hf := filter_ne_of_not_mem hnot
    rw [hf]
    congr 1
    show min idx ((ids.length : Int) - 1) = idx
    omega
  · rw [hstate]

/-! ## Device-selected events -/

theorem findLoop_eq_indexOf (clickerID : Int) (l : List Int) :
    ∀ t j, findLoop clickerID t l = some j → j = t + l.indexOf clickerID := by
  induction l with
  | nil => intro t j h; simp [findLoop] at h
  | cons x rest ih =>
    intro t j h
    by_cases hx : x = clickerID
    · simp only [findLoop, if_pos hx, Option.some.injEq] at h
      rw [List.indexOf_cons_eq rest hx]
      omega
    · simp only [findLoop, if_neg hx] at h
      rw [List.indexOf_cons_ne rest hx, ih (t + 1) j h]
      omega

/-- C5: `consumeEvent(device-selected(id))` returns true and leaves the
sequence unchanged (its array fitting an `int` index); when `id` is in the
sequence the cursor becomes the index of `id` and the selected id reported
afterwards is `id`; when `id` is absent the state is unchanged. -/
theorem C5_select_sets_cursor_to_index (c : Controls) (id : Int)
    (hlen : c.connectedClickersId.length < 2147483648) :
    (controls_ConsumeEvent c ⟨EventType.CLICKER_SELECT, id⟩).2.2 = true ∧
    (controls_ConsumeEvent c ⟨EventType.CLICKER_SELECT, id⟩).1.connectedClickersId
      = c.connectedClickersId ∧
    (id ∈ c.connectedClickersId →
      (controls_ConsumeEvent c ⟨EventType.CLICKER_SELECT, id⟩).1.selectedClickerIndex
        = (c.connectedClickersId.indexOf id : Int) ∧
      controls_GetSelectedClickerId (controls_ConsumeEvent c ⟨EventType.CLICKER_SELECT, id⟩).1
        = some id) ∧
    (id ∉ c.connectedClickersId →
      (controls_ConsumeEvent c ⟨EventType.CLICKER_SELECT, id⟩).1 = c) := by
  rcases c with ⟨ids, idx⟩
  simp only at hlen
  cases hf : findLoop id 0 ids with
  | none =>
    have hnot := (findLoop_none_iff id ids 0).1 hf
    have hstate : (controls_ConsumeEvent ⟨ids, idx⟩ ⟨EventType.CLICKER_SELECT, id⟩).1
        = ⟨ids, idx⟩ := by
      simp only [controls_ConsumeEvent, SelectClickerWithId, hf]
    refine ⟨rfl, by rw [hstate], fun hmem => absurd hmem hnot, fun _ => hstate⟩
  | some j =>
    obtain ⟨_, h2, h3, _⟩ := findLoop_some id ids 0 j hf
    have hj := findLoop_eq_indexOf id ids 0 j hf
    simp only [Nat.sub_zero] at h2 h3
    have hmem : id ∈ ids := by
      by_contra hnot
      rw [(findLoop_none_iff id ids 0).2 hnot] at hf
      exact absurd hf (by simp)
    have hstate : (controls_ConsumeEvent ⟨ids, idx⟩ ⟨EventType.CLICKER_SELECT, id⟩).1
        = ⟨ids, (j : Int)⟩ := by
      simp only [controls_ConsumeEvent, SelectClickerWithId, hf, toInt_of_lt (by omega : j < 2147483648)]
    refine ⟨rfl, by rw [hstate], fun _ => ⟨?_, ?_⟩, fun hnot => absurd hmem hnot⟩
    · rw [hstate]
      show (j : Int) = ((ids.indexOf id : Nat) : Int)
      omega
    · rw [hstate]
      have hnn : ¬ ((j : Int) < 0) := by omega
      simp only [controls_GetSelectedClickerId, hnn, if_false, Int.toNat_ofNat]
      exact h3

/-- Witness of C5: selecting device 9 in `[7, 9, 11]`. -/
theorem C5_select_sets_cursor_to_index_witness :
    ([7, 9, 11] : List Int).length < 2147483648 ∧
    (9 : Int) ∈ ([7, 9, 11] : List Int) ∧
    controls_GetSelectedClickerId
        (controls_ConsumeEvent ⟨[7, 9, 11], 0⟩ ⟨EventType.CLICKER_SELECT, 9⟩).1 = some 9 :=
  ⟨by decide, by decide,
   ((C5_select_sets_cursor_to_index ⟨[7, 9, 11], 0⟩ 9 (by decide)).2.2.1 (by decide)).2⟩

/-! ## `getState` -/

theorem acquire_clickerID {r : Registry} {id : Int} {k : Clicker}
    (h : clicker_AcquireOwnership r id = some k) : k.clickerID = id := by
  have := List.find?_some h
  simpa using this

theorem alreadyProvisioned_iff (clickerID : Int) (H : List HistoryItem) :
    GetState.alreadyProvisioned clickerID H = true ↔ clickerID ∈ H.map (fun h => h.id) := by
  induction H with
  | nil => simp [GetState.alreadyProvisioned]
  | cons h rest ih =>
    by_cases hx : h.id = clickerID
    · simp [GetState.alreadyProvisioned, hx]
    · have hx2 : ¬ clickerID = h.id := fun e => hx e.symm
      simp [GetState.alreadyProvisioned, hx, hx2, ih]

theorem historyLoop_eq_map (H : List HistoryItem) :
    GetState.historyLoop H = H.map (fun h =>
      { id := h.id, name := h.name, selected := false, inProvisionState := false,
        isProvisioned := true, isError := h.isErrored }) := by
  induction H with
  | nil => rfl
  | cons h rest ih => simp [GetState.historyLoop, ih]

theorem historyLoop_mem {H : List HistoryItem} {e : ClickerEntry}
    (he : e ∈ GetState.historyLoop H) :
    e.isProvisioned = true ∧ e.id ∈ H.map (fun h => h.id) := by
  rw [historyLoop_eq_map, List.mem_map] at he
  obtain ⟨h, hmem, rfl⟩ := he
  exact ⟨rfl, List.mem_map.2 ⟨h, hmem, rfl⟩⟩

theorem connectedLoop_mem (r : Registry) (H : List HistoryItem) (s : Int) (C : List Int)
    {e : ClickerEntry} (he : e ∈ GetState.connectedLoop r H s C) :
    e.isProvisioned = false ∧ e.id ∉ H.map (fun h => h.id) := by
  induction C with
  | nil => simp [GetState.connectedLoop] at he
  | cons id rest ih =>
    simp only [GetState.connectedLoop] at he
    cases hacq : clicker_AcquireOwnership r id with
    | none => rw [hacq] at he; exact ih he
    | some clk =>
      rw [hacq] at he
      simp only at he
      by_cases hp : GetState.alreadyProvisioned clk.clickerID H = true
      · rw [if_pos hp] at he; exact ih he
      · rw [if_neg hp, List.mem_cons] at he
        rcases he with rfl | he
        · exact ⟨rfl, fun hmem => hp ((alreadyProvisioned_iff _ _).2 hmem)⟩
        · exact ih he

/-- C8: in the reply of `getState`, for every history list, connected
sequence, registry and selected id, no id is carried both by a history entry
(`isProvisioned = true`) and by a live entry (`isProvisioned = false`). -/
theorem C8_getState_history_and_live_disjoint (H : List HistoryItem) (C : List Int)
    (R : Registry) (s : Int) (e1 e2 : ClickerEntry)
    (h1 : e1 ∈ GetState.reply H C R s) (h2 : e2 ∈ GetState.reply H C R s)
    (hp1 : e1.isProvisioned = true) (hp2 : e2.isProvisioned = false) :
    e1.id ≠ e2.id := by
  simp only [GetState.reply, List.mem_append] at h1 h2
  have m1 : e1.id ∈ H.map (fun h => h.id) := by
    rcases h1 with h1 | h1
    · exact (historyLoop_mem h1).2
    · have := (connectedLoop_mem R H s C h1).1
      rw [hp1] at this
      exact absurd this (by decide)
  have m2 : e2.id ∉ H.map (fun h => h.id) := by
    rcases h2 with h2 | h2
    · have := (historyLoop_mem h2).1
      rw [hp2] at this
      exact absurd this (by decide)
    · exact (connectedLoop_mem R H s C h2).2
  intro heq
  exact m2 (heq ▸ m1)

/-- Witness of C8: device 7 in the history, devices 7 and 9 connected. -/
theorem C8_getState_history_and_live_disjoint_witness :
    (⟨7, "a", false, false, true, true⟩ : ClickerEntry)
      ∈ GetState.reply [⟨7, "a", true⟩] [7, 9]
          [⟨7, "seven", false, 0, 0⟩, ⟨9, "nine", false, 0, 0⟩] 9 ∧
    (⟨9, "nine", true, false, false, false⟩ : ClickerEntry)
      ∈ GetState.reply [⟨7, "a", true⟩] [7, 9]
          [⟨7, "seven", false, 0, 0⟩, ⟨9, "nine", false, 0, 0⟩] 9 ∧
    (⟨7, "a", false, false, true, true⟩ : ClickerEntry).id
      ≠ (⟨9, "nine", true, false, false, false⟩ : ClickerEntry).id :=
  ⟨by decide, by decide,
   C8_getState_history_and_live_disjoint [⟨7, "a", true⟩] [7, 9]
     [⟨7, "seven", false, 0, 0⟩, ⟨9, "nine", false, 0, 0⟩] 9
     ⟨7, "a", false, false, true, true⟩ ⟨9, "nine", true, false, false, false⟩
     (by decide) (by decide) rfl rfl⟩

theorem connectedLoop_eq_filterMap (r : Registry) (H : List HistoryItem) (s : Int)
    (C : List Int) :
    GetState.connectedLoop r H s C = C.filterMap (fun id =>
      match clicker_AcquireOwnership r id with
      | none => none
      | some clk =>
        if id ∈ H.map (fun h => h.id) then none
        else some
          { id := id, name := clk.name, selected := decide (id = s),
            inProvisionState := clk.provisioningInProgress, isProvisioned := false,
            isError := decide (clk.error > 0) }) := by
  induction C with
  | nil => rfl
  | cons id rest ih =>
    simp only [GetState.connectedLoop, List.filterMap_cons]
    cases hacq : clicker_AcquireOwnership r id with
    | none => simpa using ih
    | some clk =>
      have hid := acquire_clickerID hacq
      simp only [hid]
      by_cases hp : GetState.alreadyProvisioned id H = true
      · have hm := (alreadyProvisioned_iff id H).1 hp
        rw [if_pos hp, if_pos hm]
        exact ih
      · have hm : id ∉ H.map (fun h => h.id) := fun hm => hp ((alreadyProvisioned_iff id H).2 hm)
        rw [if_neg hp, if_neg hm, ih]

/-- C9: for every history list `H`, connected sequence `C`, registry `R` and
selected id `s`, the reply built by the handler is the reply the specification
describes (history entries first, then the live entries of the connected
devices found in `R` and absent from `H`), and the handler, run on a controller
state whose sequence is `C` and whose selected id is `s`, sends that reply and
returns OK. -/
theorem C9_getState_reply_is_history_then_live (H : List HistoryItem) (C : List Int)
    (R : Registry) (s : Int) :
    GetState.reply H C R s = specGetStateReply H C R s ∧
    ∀ c : Controls, c.connectedClickersId = C → controls_GetSelectedClickerId c = some s →
      GetStateMethodHandler c R H = some (specGetStateReply H C R s, UBUS_STATUS_OK) := by
  have hreply : GetState.reply H C R s = specGetStateReply H C R s := by
    simp only [GetState.reply, specGetStateReply, historyLoop_eq_map,
      connectedLoop_eq_filterMap]
  refine ⟨hreply, ?_⟩
  intro c hC hs
  simp only [GetStateMethodHandler, hs, controls_GetAllClickersIds, hC, hreply]

/-- Witness of C9: the handler on `[7, 9]` with device 9 selected and device 7
in the history. -/
theorem C9_getState_reply_is_history_then_live_witness :
    controls_GetSelectedClickerId ⟨[7, 9], 1⟩ = some 9 ∧
    GetStateMethodHandler ⟨[7, 9], 1⟩
        [⟨7, "seven", false, 0, 0⟩, ⟨9, "nine", true, 0, 3⟩] [⟨7, "a", true⟩]
      = some (specGetStateReply [⟨7, "a", true⟩] [7, 9]
          [⟨7, "seven", false, 0, 0⟩, ⟨9, "nine", true, 0, 3⟩] 9, UBUS_STATUS_OK) :=
  ⟨by decide,
   (C9_getState_reply_is_history_then_live [⟨7, "a", true⟩] [7, 9]
      [⟨7, "seven", false, 0, 0⟩, ⟨9, "nine", true, 0, 3⟩] 9).2 ⟨[7, 9], 1⟩ rfl (by decide)⟩

/-! ## `startProvision` of the controller -/

theorem acquire_write (f : Clicker → Clicker) (hf : ∀ k, (f k).clickerID = k.clickerID)
    (X : Int) (r : Registry) (id : Int) :
    clicker_AcquireOwnership (Registry.write f X r) id
      = if id = X then (clicker_AcquireOwnership r X).map f
        else clicker_AcquireOwnership r id := by
  induction r with
  | nil => simp [Registry.write, clicker_AcquireOwnership]
  | cons k rest ih =>
    simp only [clicker_AcquireOwnership] at ih
    by_cases hk : k.clickerID = X
    · by_cases hid : id = X
      · simp [Registry.write, clicker_AcquireOwnership, hk, hid, hf]
      · have hne : ¬ X = id := fun e => hid e.symm
        simp [Registry.write, clicker_AcquireOwnership, hk, hid, hf, hne]
    · by_cases hid : id = X
      · subst hid
        simp [Registry.write, clicker_AcquireOwnership, hk, ih]
      · by_cases hkid : k.clickerID = id
        · simp [Registry.write, clicker_AcquireOwnership, hk, hid, hkid]
        · simp [Registry.write, clicker_AcquireOwnership, hk, hid, hkid, ih]

theorem write_length (f : Clicker → Clicker) (X : Int) (r : Registry) :
    (Registry.write f X r).length = r.length := by
  induction r with
  | nil => rfl
  | cons k rest ih =>
    by_cases hk : k.clickerID = X <;> simp [Registry.write, hk, ih]

/-- C7: the controller's `startProvision`.  With a negative cursor or an empty
sequence, or when the selected id is not found in the registry, it pushes no
event and leaves registry and controller state as they are.  With a valid
selection of a known device `X` it pushes exactly start-provisioning(X) then
remove-from-history(X), keeps the controller state, and the registry differs
only in that the record of `X` has its provisioning-in-progress flag set.
On every state that satisfies the cursor invariant one of these cases applies. -/
theorem C7_startProvision_effects (c : Controls) (r : Registry) :
    ((c.selectedClickerIndex < 0 ∨ c.connectedClickersId = []) →
      StartProvisionCallback c r = some (c, r, [])) ∧
    (∀ X : Int, 0 ≤ c.selectedClickerIndex →
      c.connectedClickersId[c.selectedClickerIndex.toNat]? = some X →
      (clicker_AcquireOwnership r X = none → StartProvisionCallback c r = some (c, r, [])) ∧
      (∀ k : Clicker, clicker_AcquireOwnership r X = some k →
        StartProvisionCallback c r
          = some (c, Registry.write (fun k => { k with provisioningInProgress := true }) X r,
              [Pushed.withInt EventType.CLICKER_START_PROVISION X,
               Pushed.withInt EventType.HISTORY_REMOVE X]) ∧
        (Registry.write (fun k => { k with provisioningInProgress := true }) X r).length
          = r.length ∧
        ∀ id : Int,
          clicker_AcquireOwnership
              (Registry.write (fun k => { k with provisioningInProgress := true }) X r) id
            = if id = X then some { k with provisioningInProgress := true }
              else clicker_AcquireOwnership r id)) ∧
    (CursorInv c → (StartProvisionCallback c r).isSome = true) := by
  refine ⟨?_, ?_, ?_⟩
  · intro h
    have h2 : c.selectedClickerIndex < 0 ∨ c.connectedClickersId.length = 0 := by
      rcases h with h | h
      · exact Or.inl h
      · exact Or.inr (by rw [h]; rfl)
    simp only [StartProvisionCallback, if_pos h2]
  · intro X h0 hX
    have hlt : c.selectedClickerIndex.toNat < c.connectedClickersId.length :=
      (List.getElem?_eq_some.1 hX).1
    have hguard : ¬ (c.selectedClickerIndex < 0 ∨ c.connectedClickersId.length = 0) := by
      omega
    refine ⟨?_, ?_⟩
    · intro hnone
      simp only [StartProvisionCallback, if_neg hguard, hX, hnone]
    · intro k hk
      refine ⟨?_, write_length _ X r, ?_⟩
      · simp only [StartProvisionCallback, if_neg hguard, hX, hk]
      · intro id
        rw [acquire_write (fun k => { k with provisioningInProgress := true })
          (fun _ => rfl) X r id, hk]
        rfl
  · intro hinv
    obtain ⟨h1, h2, h3⟩ := hinv
    by_cases hneg : c.selectedClickerIndex < 0
    · simp only [StartProvisionCallback, if_pos (Or.inl hneg), Option.isSome_some]
    · have hlt : c.selectedClickerIndex.toNat < c.connectedClickersId.length := by omega
      have hguard : ¬ (c.selectedClickerIndex < 0 ∨ c.connectedClickersId.length = 0) := by
        omega
      have hget : c.connectedClickersId[c.selectedClickerIndex.toNat]?
          = some (c.connectedClickersId[c.selectedClickerIndex.toNat]) :=
        List.getElem?_eq_getElem hlt
      simp only [StartProvisionCallback, if_neg hguard, hget]
      cases clicker_AcquireOwnership r (c.connectedClickersId[c.selectedClickerIndex.toNat]) <;> rfl

/-- Witness of C7: device 9 selected and known to the registry. -/
theorem C7_startProvision_effects_witness :
    (0 : Int) ≤ (Controls.mk [7, 9] 1).selectedClickerIndex ∧
    clicker_AcquireOwnership [⟨7, "seven", false, 0, 0⟩, ⟨9, "nine", false, 0, 0⟩] 9
      = some ⟨9, "nine", false, 0, 0⟩ ∧
    StartProvisionCallback ⟨[7, 9], 1⟩ [⟨7, "seven", false, 0, 0⟩, ⟨9, "nine", false, 0, 0⟩]
      = some (⟨[7, 9], 1⟩,
          Registry.write (fun k => { k with provisioningInProgress := true }) 9
            [⟨7, "seven", false, 0, 0⟩, ⟨9, "nine", false, 0, 0⟩],
          [Pushed.withInt EventType.CLICKER_START_PROVISION 9,
           Pushed.withInt EventType.HISTORY_REMOVE 9]) :=
  ⟨by decide, by decide,
   (((C7_startProvision_effects ⟨[7, 9], 1⟩
        [⟨7, "seven", false, 0, 0⟩, ⟨9, "nine", false, 0, 0⟩]).2.1 9 (by decide) (by decide)).2
      ⟨9, "nine", false, 0, 0⟩ (by decide)).1⟩

/-! ## The scenario create(7), create(9), selectNext, startProvision, getState -/

theorem alreadyProvisioned_eq_false {clickerID : Int} {H : List HistoryItem}
    (h : ∀ x ∈ H, x.id ≠ clickerID) : GetState.alreadyProvisioned clickerID H = false := by
  cases hb : GetState.alreadyProvisioned clickerID H with
  | false => rfl
  | true =>
    obtain ⟨x, hx, hid⟩ := List.mem_map.1 ((alreadyProvisioned_iff clickerID H).1 hb)
    exact absurd hid (h x hx)

/-- C6: from the initial state, with devices 7 and 9 in the registry (any
names), not in error and not in the history `H`: after create(7) the selected
id is 7; after create(9) it is still 7; after `selectNext` it is 9; the
controller's `startProvision` then sets the flag of device 9 and pushes
start-provisioning(9) followed by remove-from-history(9); `getState` then
replies with the history entries followed by the entry of device 7 and the
entry of device 9, the latter with `selected`, `inProvisionState = true`,
`isProvisioned = false`, `isError = false`, and returns OK. -/
theorem C6_create_create_next_provision_scenario (n7 n9 : String) (H : List HistoryItem)
    (hH : ∀ h ∈ H, h.id ≠ 7 ∧ h.id ≠ 9) :
    (controls_ConsumeEvent initialControls ⟨EventType.CLICKER_CREATE, 7⟩).1 = ⟨[7], 0⟩ ∧
    controls_GetSelectedClickerId ⟨[7], 0⟩ = some 7 ∧
    (controls_ConsumeEvent ⟨[7], 0⟩ ⟨EventType.CLICKER_CREATE, 9⟩).1 = ⟨[7, 9], 0⟩ ∧
    controls_GetSelectedClickerId ⟨[7, 9], 0⟩ = some 7 ∧
    (SelectNextClickerCallback ⟨[7, 9], 0⟩).1 = ⟨[7, 9], 1⟩ ∧
    controls_GetSelectedClickerId ⟨[7, 9], 1⟩ = some 9 ∧
    StartProvisionCallback ⟨[7, 9], 1⟩ [⟨7, n7, false, 0, 0⟩, ⟨9, n9, false, 0, 0⟩]
      = some (⟨[7, 9], 1⟩, [⟨7, n7, false, 0, 0⟩, ⟨9, n9, true, 0, 0⟩],
          [Pushed.withInt EventType.CLICKER_START_PROVISION 9,
           Pushed.withInt EventType.HISTORY_REMOVE 9]) ∧
    GetStateMethodHandler ⟨[7, 9], 1⟩ [⟨7, n7, false, 0, 0⟩, ⟨9, n9, true, 0, 0⟩] H
      = some (GetState.historyLoop H
          ++ [⟨7, n7, false, false, false, false⟩, ⟨9, n9, true, true, false, false⟩],
          UBUS_STATUS_OK) := by
  have h7 : GetState.alreadyProvisioned 7 H = false :=
    alreadyProvisioned_eq_false (fun x hx => (hH x hx).1)
  have h9 : GetState.alreadyProvisioned 9 H = false :=
    alreadyProvisioned_eq_false (fun x hx => (hH x hx).2)
  refine ⟨by decide, by decide, by decide, by decide, by decide, by decide, ?_, ?_⟩
  · simp [StartProvisionCallback, clicker_AcquireOwnership, Registry.write]
  · simp [GetStateMethodHandler, controls_GetSelectedClickerId, controls_GetAllClickersIds,
      GetState.reply, GetState.connectedLoop, clicker_AcquireOwnership, h7, h9]

/-- Witness of C6: an empty history and the names "seven" and "nine". -/
theorem C6_create_create_next_provision_scenario_witness :
    (∀ h ∈ ([] : List HistoryItem), h.id ≠ 7 ∧ h.id ≠ 9) ∧
    GetStateMethodHandler ⟨[7, 9], 1⟩
        [⟨7, "seven", false, 0, 0⟩, ⟨9, "nine", true, 0, 0⟩] []
      = some (GetState.historyLoop []
          ++ [⟨7, "seven", false, false, false, false⟩, ⟨9, "nine", true, true, false, false⟩],
          UBUS_STATUS_OK) :=
  ⟨by decide,
   (C6_create_create_next_provision_scenario "seven" "nine" [] (by decide)).2.2.2.2.2.2.2⟩

/-! ## `setClickerName` -/

/-- C10: the name replacement of `setClickerName` for a known device.  A
supplied name shorter than `COMMAND_ENDPOINT_NAME_LENGTH` (`maxLen`) gets a
buffer of exactly its length, and `strlcpy` stores one byte more than that (the
name and the terminator); a name of at least `maxLen > 0` characters gets
`maxLen` bytes and `maxLen` are stored.  In both cases the string stored is the
first `min length (maxLen - 1)` characters of the supplied name. -/
theorem C10_setClickerName_buffer_one_byte_short (maxLen : Nat) (r : Registry) (u : Nat)
    (k : Clicker) (clickerName : String)
    (hk : clicker_AcquireOwnership r (toInt u) = some k) :
    (SetClickerNameMethodHandler maxLen r (some u) (some clickerName)).2.2
      = some (SetClickerName.replaceName maxLen clickerName) ∧
    (SetClickerName.replaceName maxLen clickerName).stored.data
      = clickerName.data.take (min clickerName.length (maxLen - 1)) ∧
    (clickerName.length < maxLen →
      (SetClickerName.replaceName maxLen clickerName).allocated = clickerName.length ∧
      (SetClickerName.replaceName maxLen clickerName).written = clickerName.length + 1 ∧
      (SetClickerName.replaceName maxLen clickerName).allocated
        < (SetClickerName.replaceName maxLen clickerName).written) ∧
    (0 < maxLen → maxLen ≤ clickerName.length →
      (SetClickerName.replaceName maxLen clickerName).allocated = maxLen ∧
      (SetClickerName.replaceName maxLen clickerName).written = maxLen) := by
  refine ⟨?_, ?_, ?_, ?_⟩
  · simp only [SetClickerNameMethodHandler, hk]
  · simp only [SetClickerName.replaceName, strlcpy.stored]
    rw [List.take_eq_take]
    show min (maxLen - 1) clickerName.data.length
      = min (min clickerName.data.length (maxLen - 1)) clickerName.data.length
    omega
  · intro hshort
    have h1 : ¬ clickerName.length > maxLen := by omega
    have h2 : ¬ maxLen = 0 := by omega
    have h3 : min clickerName.length (maxLen - 1) = clickerName.length :=
      Nat.min_eq_left (by omega)
    simp only [SetClickerName.replaceName, strlcpy.written, if_neg h1, if_neg h2, h3]
    exact ⟨trivial, trivial, Nat.lt_succ_self _⟩
  · intro hpos hlong
    have h2 : ¬ maxLen = 0 := by omega
    have h3 : min clickerName.length (maxLen - 1) = maxLen - 1 :=
      Nat.min_eq_right (by omega)
    simp only [SetClickerName.replaceName, strlcpy.written, if_neg h2, h3]
    refine ⟨?_, by omega⟩
    split <;> omega

/-- Witness of C10: the name "ab" for device 7, with a maximum of 24. -/
theorem C10_setClickerName_buffer_one_byte_short_witness :
    clicker_AcquireOwnership [⟨7, "seven", false, 0, 0⟩] (toInt 7)
      = some ⟨7, "seven", false, 0, 0⟩ ∧
    "ab".length < 24 ∧
    (SetClickerName.replaceName 24 "ab").allocated = 2 ∧
    (SetClickerName.replaceName 24 "ab").written = 2 + 1 :=
  ⟨by decide, by decide,
   ((C10_setClickerName_buffer_one_byte_short 24 [⟨7, "seven", false, 0, 0⟩] 7
      ⟨7, "seven", false, 0, 0⟩ "ab" (by decide)).2.2.1 (by decide)).1,
   ((C10_setClickerName_buffer_one_byte_short 24 [⟨7, "seven", false, 0, 0⟩] 7
      ⟨7, "seven", false, 0, 0⟩ "ab" (by decide)).2.2.1 (by decide)).2.1⟩

/-! ## RPC handlers `select`, `setClickerName` and `startProvision` -/

theorem toInt_toUInt_of_int_range {x : Int} (h0 : -2147483648 ≤ x) (h1 : x < 2147483648) :
    toInt (toUInt x) = x := by
  by_cases hx : 0 ≤ x
  · exact toInt_toUInt_of_range hx h1
  · unfold toUInt toInt
    have hmod : x % 4294967296 = x + 4294967296 := by
      rw [← Int.add_emod_self]
      exact Int.emod_eq_of_lt (by omega) (by omega)
    rw [hmod]
    have hnat : (x + 4294967296).toNat % 4294967296 = (x + 4294967296).toNat := by omega
    rw [hnat, if_neg (by omega)]
    omega

theorem toUInt_toInt_of_lt {u : Nat} (h : u < 4294967296) : toUInt (toInt u) = u := by
  unfold toInt toUInt
  have hmod : u % 4294967296 = u := Nat.mod_eq_of_lt h
  rw [hmod]
  by_cases hu : u < 2147483648
  · rw [if_pos hu, Int.emod_eq_of_lt (by omega) (by omega)]
    omega
  · rw [if_neg hu]
    have : ((u : Int) - 4294967296) % 4294967296 = (u : Int) := by omega
    rw [this]
    omega

/-- C11: the statuses of `select` and `setClickerName`.  `select` without
`clickerID` pushes no event and returns `UBUS_STATUS_NO_DATA`, with it pushes
the select event and returns OK.  `setClickerName` leaves the registry as it is
whenever it does not return OK; it returns `UBUS_STATUS_NO_DATA` for an unknown
device and for a known device without `clickerName`, and OK when both
arguments are present and the device is known; but without `clickerID` it
returns the literal status 1, which is not `UBUS_STATUS_NO_DATA`. -/
theorem C11_select_setClickerName_missing_argument_status (maxLen : Nat) (r : Registry)
    (u : Nat) (argName : Option String) (name : String) :
    SelectMethodHandler none = ([], UBUS_STATUS_NO_DATA) ∧
    SelectMethodHandler (some u)
      = ([Pushed.withInt EventType.CLICKER_SELECT (toInt u)], UBUS_STATUS_OK) ∧
    SetClickerNameMethodHandler maxLen r none argName = (r, 1, none) ∧
    (1 : Nat) ≠ UBUS_STATUS_NO_DATA ∧
    (clicker_AcquireOwnership r (toInt u) = none →
      SetClickerNameMethodHandler maxLen r (some u) argName
        = (r, UBUS_STATUS_NO_DATA, none)) ∧
    (∀ k : Clicker, clicker_AcquireOwnership r (toInt u) = some k →
      SetClickerNameMethodHandler maxLen r (some u) none = (r, UBUS_STATUS_NO_DATA, none) ∧
      (SetClickerNameMethodHandler maxLen r (some u) (some name)).2.1 = UBUS_STATUS_OK) := by
  refine ⟨rfl, rfl, rfl, by decide, ?_, ?_⟩
  · intro h
    simp only [SetClickerNameMethodHandler, h]
  · intro k hk
    constructor <;> simp only [SetClickerNameMethodHandler, hk]

/-- Witness of C11: `setClickerName` for the known device 7, first without a
name, then with the name "ab". -/
theorem C11_select_setClickerName_missing_argument_status_witness :
    clicker_AcquireOwnership [⟨7, "seven", false, 0, 0⟩] (toInt 7)
      = some ⟨7, "seven", false, 0, 0⟩ ∧
    SetClickerNameMethodHandler 24 [⟨7, "seven", false, 0, 0⟩] (some 7) none
      = ([⟨7, "seven", false, 0, 0⟩], UBUS_STATUS_NO_DATA, none) ∧
    (SetClickerNameMethodHandler 24 [⟨7, "seven", false, 0, 0⟩] (some 7) (some "ab")).2.1
      = UBUS_STATUS_OK :=
  ⟨by decide,
   (C11_select_setClickerName_missing_argument_status 24 [⟨7, "seven", false, 0, 0⟩] 7
      none "ab").2.2.2.2.2 ⟨7, "seven", false, 0, 0⟩ (by decide)⟩

/-- C12: the RPC method `startProvision` always pushes exactly one
start-provisioning event and returns OK.  With a `clickerID` argument the
event carries that 32-bit value (as the `int` with the same bits); without it
the event carries the id the controller reports as selected, the round trip
through the `uint32_t` variable giving back the same `int`, the sentinel -1
included. -/
theorem C12_startProvision_rpc_passes_selection_through (c : Controls) (u : Nat) :
    StartProvisionMethodHandler c (some u)
      = some ([Pushed.withInt EventType.CLICKER_START_PROVISION (toInt u)],
              UBUS_STATUS_OK) ∧
    (u < 2147483648 → toInt u = (u : Int)) ∧
    (u < 4294967296 → toUInt (toInt u) = u) ∧
    (∀ sel : Int, controls_GetSelectedClickerId c = some sel →
      -2147483648 ≤ sel → sel < 2147483648 →
      StartProvisionMethodHandler c none
        = some ([Pushed.withInt EventType.CLICKER_START_PROVISION sel], UBUS_STATUS_OK)) ∧
    (c.selectedClickerIndex < 0 →
      controls_GetSelectedClickerId c = some (-1) ∧
      StartProvisionMethodHandler c none
        = some ([Pushed.withInt EventType.CLICKER_START_PROVISION (-1)], UBUS_STATUS_OK)) ∧
    (CursorInv c →
      (∀ x ∈ c.connectedClickersId, -2147483648 ≤ x ∧ x < 2147483648) →
      ∃ sel : Int, controls_GetSelectedClickerId c = some sel ∧
        StartProvisionMethodHandler c none
          = some ([Pushed.withInt EventType.CLICKER_START_PROVISION sel],
                  UBUS_STATUS_OK)) := by
  have hsome : ∀ sel : Int, controls_GetSelectedClickerId c = some sel →
      -2147483648 ≤ sel → sel < 2147483648 →
      StartProvisionMethodHandler c none
        = some ([Pushed.withInt EventType.CLICKER_START_PROVISION sel], UBUS_STATUS_OK) := by
    intro sel hsel h0 h1
    simp only [StartProvisionMethodHandler, hsel, toInt_toUInt_of_int_range h0 h1]
  have hneg : c.selectedClickerIndex < 0 → controls_GetSelectedClickerId c = some (-1) := by
    intro hneg
    simp only [controls_GetSelectedClickerId, if_pos hneg]
  refine ⟨rfl, fun h => toInt_of_lt h, fun h => toUInt_toInt_of_lt h, hsome, ?_, ?_⟩
  · intro h
    exact ⟨hneg h, hsome (-1) (hneg h) (by decide) (by decide)⟩
  · intro hinv hrange
    obtain ⟨h1, h2, _⟩ := hinv
    by_cases hlt : c.selectedClickerIndex < 0
    · exact ⟨-1, hneg hlt, hsome (-1) (hneg hlt) (by decide) (by decide)⟩
    · have hidx : c.selectedClickerIndex.toNat < c.connectedClickersId.length := by omega
      have hsel : controls_GetSelectedClickerId c
          = some (c.connectedClickersId[c.selectedClickerIndex.toNat]) := by
        simp only [controls_GetSelectedClickerId, if_neg hlt]
        exact List.getElem?_eq_getElem hidx
      have hr := hrange _ (List.getElem_mem hidx)
      exact ⟨_, hsel, hsome _ hsel hr.1 hr.2⟩

/-- Witness of C12: nothing selected, and device 9 selected. -/
theorem C12_startProvision_rpc_passes_selection_through_witness :
    StartProvisionMethodHandler ⟨[], -1⟩ none
      = some ([Pushed.withInt EventType.CLICKER_START_PROVISION (-1)], UBUS_STATUS_OK) ∧
    StartProvisionMethodHandler ⟨[7, 9], 1⟩ none
      = some ([Pushed.withInt EventType.CLICKER_START_PROVISION 9], UBUS_STATUS_OK) :=
  ⟨((C12_startProvision_rpc_passes_selection_through ⟨[], -1⟩ 0).2.2.2.2.1 (by decide)).2,
   (C12_startProvision_rpc_passes_selection_through ⟨[7, 9], 1⟩ 0).2.2.2.1 9 (by decide)
     (by decide) (by decide)⟩

/-! ## The credential-response handler -/

theorem markToDelete_addrs (p : Nat) (mem : List UBusMemoryBlock) :
    (markToDelete p mem).map (fun b => b.addr) = mem.map (fun b => b.addr) := by
  induction mem with
  | nil => rfl
  | cons b rest ih =>
    simp only [markToDelete, List.map_cons, List.map_map] at ih ⊢
    rw [ih]
    by_cases hb : b.addr = p <;> simp [hb]

theorem markToDelete_mem {block : UBusMemoryBlock} {mem : List UBusMemoryBlock}
    (h : block ∈ mem) :
    { block with toDelete := true } ∈ markToDelete block.addr mem := by
  simp only [markToDelete, List.mem_map]
  exact ⟨block, h, by simp⟩

theorem handler_collection (N : Nat) (mem : List UBusMemoryBlock) (block : UBusMemoryBlock)
    (msg : GeneratePskReply) (init : Option String) :
    (GeneratePskResponseHandler N mem block msg init).1 = markToDelete block.addr mem := by
  unfold GeneratePskResponseHandler
  cases msg.error <;> cases msg.pskSecret <;> cases msg.pskIdentity <;> cases init <;> rfl

theorem handler_one_event (N : Nat) (mem : List UBusMemoryBlock) (block : UBusMemoryBlock)
    (msg : GeneratePskReply) (init : Option String) :
    ∃ e : PreSharedKey,
      (GeneratePskResponseHandler N mem block msg init).2 = [Pushed.pskObtained e] ∧
      e.clickerId = block.clickerId := by
  unfold GeneratePskResponseHandler
  cases msg.error <;> cases msg.pskSecret <;> cases msg.pskIdentity <;> cases init <;>
    exact ⟨_, rfl, rfl⟩

/-- C13: the credential-response handler, for every reply and every request
object.  It pushes exactly one credential-obtained event, carrying the device
id of the object; it sets the flag of the object and removes nothing from the
collection; with an error field or without the secret the credential is empty.
Without the identity (no error, secret present) the outcome depends on the
value the uninitialised local `identity` happens to hold: empty credential when
it is a null pointer, otherwise a credential made of the string it points to
and of the secret. -/
theorem C13_psk_response_missing_identity_reads_uninitialised (N : Nat)
    (mem : List UBusMemoryBlock) (block : UBusMemoryBlock) (msg : GeneratePskReply)
    (init : Option String) :
    (∃ e : PreSharedKey,
      (GeneratePskResponseHandler N mem block msg init).2 = [Pushed.pskObtained e] ∧
      e.clickerId = block.clickerId) ∧
    (GeneratePskResponseHandler N mem block msg init).1 = markToDelete block.addr mem ∧
    ((GeneratePskResponseHandler N mem block msg init).1).map (fun b => b.addr)
      = mem.map (fun b => b.addr) ∧
    (block ∈ mem →
      { block with toDelete := true } ∈ (GeneratePskResponseHandler N mem block msg init).1) ∧
    ((msg.error ≠ none ∨ msg.pskSecret = none) →
      (GeneratePskResponseHandler N mem block msg init).2
        = [Pushed.pskObtained (emptyPreSharedKey block.clickerId)]) ∧
    (∀ secret : String, msg.error = none → msg.pskSecret = some secret →
      msg.pskIdentity = none →
      (init = none →
        (GeneratePskResponseHandler N mem block msg init).2
          = [Pushed.pskObtained (emptyPreSharedKey block.clickerId)]) ∧
      (∀ g : String, init = some g →
        (GeneratePskResponseHandler N mem block msg init).2
          = [Pushed.pskObtained
              { clickerId := block.clickerId,
                identity := strlcpy.stored g N,
                identityLen := if g.length > N then N else g.length,
                psk := strlcpy.stored secret N,
                pskLen := if secret.length > N then N else secret.length }])) := by
  refine ⟨handler_one_event N mem block msg init, handler_collection N mem block msg init,
    ?_, ?_, ?_, ?_⟩
  · rw [handler_collection]
    exact markToDelete_addrs block.addr mem
  · intro h
    rw [handler_collection]
    exact markToDelete_mem h
  · intro h
    unfold GeneratePskResponseHandler
    cases he : msg.error with
    | some e => rfl
    | none =>
      cases hs : msg.pskSecret with
      | none => rfl
      | some s =>
        rcases h with h | h
        · exact absurd he h
        · rw [hs] at h
          exact absurd h (by simp)
  · intro secret he hs hi
    unfold GeneratePskResponseHandler
    simp only [he, hs, hi]
    constructor
    · intro hinit
      simp only [hinit]
    · intro g hinit
      simp only [hinit]

/-- Witness of C13: a reply that holds only the secret "s3cret", while the
uninitialised `identity` points to the string "garbage". -/
theorem C13_psk_response_missing_identity_reads_uninitialised_witness :
    (GeneratePskResponseHandler 64 [⟨100, 7, false⟩] ⟨100, 7, false⟩
        ⟨none, none, some "s3cret", none⟩ (some "garbage")).2
      = [Pushed.pskObtained
          { clickerId := 7,
            identity := strlcpy.stored "garbage" 64,
            identityLen := if "garbage".length > 64 then 64 else "garbage".length,
            psk := strlcpy.stored "s3cret" 64,
            pskLen := if "s3cret".length > 64 then 64 else "s3cret".length }] ∧
    (GeneratePskResponseHandler 64 [⟨100, 7, false⟩] ⟨100, 7, false⟩
        ⟨none, none, some "s3cret", none⟩ (some "garbage")).2
      ≠ [Pushed.pskObtained (emptyPreSharedKey 7)] :=
  ⟨((C13_psk_response_missing_identity_reads_uninitialised 64 [⟨100, 7, false⟩]
      ⟨100, 7, false⟩ ⟨none, none, some "s3cret", none⟩ (some "garbage")).2.2.2.2.2
      "s3cret" rfl rfl rfl).2 "garbage" rfl,
   by decide⟩

/-! ## `sendCredentialRequest` with the peer absent -/

theorem wait_returns {observed : List Bool} (h : true ∈ observed) :
    ∃ n, WaitForInterruptState observed = some n ∧ 0 < n ∧ n ≤ observed.length := by
  induction observed with
  | nil => simp at h
  | cons ok later ih =>
    cases ok with
    | true => exact ⟨1, rfl, by omega, by simp⟩
    | false =>
      have hl : true ∈ later := by simpa using h
      obtain ⟨n, hn, h0, h1⟩ := ih hl
      refine ⟨n + 1, ?_, by omega, by simp only [List.length_cons]; omega⟩
      simp [WaitForInterruptState, hn]

/-- C14: `sendCredentialRequest` when the lookup of the peer's service fails
(`ubus_lookup_id` returns a non-zero status), for every device id, once the
wait for the confirmation has ended: it returns false, pushes no event, its
only bus call is the lookup (no call is dispatched, so no reply can produce a
credential-obtained event later), the request collection is unchanged, and
`_UBusInterruption` is cleared on return. -/
theorem C14_sendCredentialRequest_peer_absent (a : UBusAgent) (observed : List Bool)
    (lookupRet id invokeRet p : Nat) (clickerId : Int)
    (hwait : true ∈ observed) (hfail : lookupRet ≠ 0) :
    ∃ a1 : UBusAgent,
      ubusagent_SendGeneratePskMessage a observed lookupRet id invokeRet p clickerId
        = some (a1, [BusCall.lookup_id "creator"], [], false) ∧
      a1.UBusRequestMemory = a.UBusRequestMemory ∧
      a1.UBusInterruption = false ∧
      a1.uloop_cancelled = false ∧
      a1.UBusRunning = a.UBusRunning := by
  obtain ⟨n, hn, _, _⟩ := wait_returns hwait
  refine ⟨SetUBusLoopInterruption (SetUBusLoopInterruption a true) false, ?_, rfl, rfl, rfl,
    rfl⟩
  simp only [ubusagent_SendGeneratePskMessage, hn, if_pos hfail]

/-- Witness of C14: the confirmation is read at the third poll and the lookup
returns status 4. -/
theorem C14_sendCredentialRequest_peer_absent_witness :
    true ∈ [false, false, true] ∧ (4 : Nat) ≠ 0 ∧
    ∃ a1 : UBusAgent,
      ubusagent_SendGeneratePskMessage ⟨true, false, false, false, [⟨100, 7, false⟩]⟩
          [false, false, true] 4 0 0 101 9
        = some (a1, [BusCall.lookup_id "creator"], [], false) ∧
      a1.UBusRequestMemory = [⟨100, 7, false⟩] ∧
      a1.UBusInterruption = false ∧
      a1.uloop_cancelled = false ∧
      a1.UBusRunning = true :=
  ⟨by decide, by decide,
   C14_sendCredentialRequest_peer_absent ⟨true, false, false, false, [⟨100, 7, false⟩]⟩
     [false, false, true] 4 0 0 101 9 (by decide) (by decide)⟩

/-! ## The watchdog pass -/

theorem ulongSub_of_le {M a b : Nat} (ha : a < M) (hb : b ≤ a) : ulongSub M a b = a - b := by
  unfold ulongSub
  have h : a + M - b = (a - b) + M := by omega
  rw [h, Nat.add_mod_right]
  exact Nat.mod_eq_of_lt (by omega)

theorem watchdog_loop_eq_filter (M : Nat) (r : Registry) (now : Nat) (l : List Int) :
    ∀ t, CheckForFinishedProvisionings.loop M r (fun _ => now) t l
      = l.filter (specDisconnectDue r (fun ts => ulongSub M now ts)) := by
  induction l with
  | nil => intro t; rfl
  | cons id rest ih =>
    intro t
    cases hacq : clicker_AcquireOwnership r id with
    | none =>
      have hd : specDisconnectDue r (fun ts => ulongSub M now ts) id = false := by
        simp only [specDisconnectDue, hacq]
      simp only [CheckForFinishedProvisionings.loop, hacq, List.filter_cons, hd, ih (t + 1)]
      simp
    | some clk =>
      have hid := acquire_clickerID hacq
      by_cases hp : clk.provisionTime > 0
      · by_cases hage : ulongSub M now clk.provisionTime > 3000
        · have hd : specDisconnectDue r (fun ts => ulongSub M now ts) id = true := by
            simp only [specDisconnectDue, hacq]
            exact decide_eq_true ⟨hp, hage⟩
          simp only [CheckForFinishedProvisionings.loop, hacq, List.filter_cons, hd,
            ih (t + 1), if_pos hp, TIME_TO_DISCONNECT_AFTER_PROVISION, if_pos hage, hid,
            if_true]
        · have hd : specDisconnectDue r (fun ts => ulongSub M now ts) id = false := by
            simp only [specDisconnectDue, hacq]
            exact decide_eq_false (fun h => hage h.2)
          simp only [CheckForFinishedProvisionings.loop, hacq, List.filter_cons, hd,
            ih (t + 1), if_pos hp, TIME_TO_DISCONNECT_AFTER_PROVISION, if_neg hage]
          simp
      · have hd : specDisconnectDue r (fun ts => ulongSub M now ts) id = false := by
          simp only [specDisconnectDue, hacq]
          exact decide_eq_false (fun h => hp h.1)
        simp only [CheckForFinishedProvisionings.loop, hacq, List.filter_cons, hd,
          ih (t + 1), if_neg hp]
        simp

theorem count_filter_of_nodup {l : List Int} (h : l.Nodup) (p : Int → Bool) (id : Int) :
    (l.filter p).count id = if id ∈ l ∧ p id = true then 1 else 0 := by
  have hnd : (l.filter p).Nodup := h.filter p
  by_cases hm : id ∈ l.filter p
  · rw [List.count_eq_one_of_mem hnd hm, if_pos (List.mem_filter.1 hm)]
  · rw [List.count_eq_zero_of_not_mem hm, if_neg (fun hc => hm (List.mem_filter.2 hc))]

/-- C15: one watchdog pass under a clock that reads `now` throughout, for a
duplicate-free connected sequence and every registry.  The ids passed to
`con_Disconnect` are, in order, the connected ids whose record is found, whose
provisioning-completion timestamp is set (> 0) and whose age exceeds 3000 ms;
each such id is disconnected exactly once and no other id is disconnected.
The age is the `unsigned long` difference `now - timestamp`, which is the plain
difference whenever the timestamp is not later than `now`. -/
theorem C15_watchdog_disconnects_each_due_device_once (M : Nat) (c : Controls)
    (r : Registry) (now : Nat) (hnd : c.connectedClickersId.Nodup) (hnow : now < M) :
    CheckForFinishedProvisionings M c r (fun _ => now)
      = c.connectedClickersId.filter (specDisconnectDue r (fun ts => ulongSub M now ts)) ∧
    (∀ id : Int,
      (CheckForFinishedProvisionings M c r (fun _ => now)).count id
        = if id ∈ c.connectedClickersId
              ∧ specDisconnectDue r (fun ts => ulongSub M now ts) id = true
          then 1 else 0) ∧
    (∀ ts : Nat, ts ≤ now → ulongSub M now ts = now - ts) ∧
    ((∀ k ∈ r, k.provisionTime ≤ now) →
      CheckForFinishedProvisionings M c r (fun _ => now)
        = c.connectedClickersId.filter (specDisconnectDue r (fun ts => now - ts)) ∧
      ∀ id : Int,
        (CheckForFinishedProvisionings M c r (fun _ => now)).count id
          = if id ∈ c.connectedClickersId ∧ specDisconnectDue r (fun ts => now - ts) id = true
            then 1 else 0) := by
  have hloop : CheckForFinishedProvisionings M c r (fun _ => now)
      = c.connectedClickersId.filter (specDisconnectDue r (fun ts => ulongSub M now ts)) :=
    watchdog_loop_eq_filter M r now c.connectedClickersId 0
  refine ⟨hloop, ?_, fun ts hts => ulongSub_of_le hnow hts, ?_⟩
  · intro id
    rw [hloop]
    exact count_filter_of_nodup hnd _ id
  · intro hpast
    have hsame : ∀ id : Int, specDisconnectDue r (fun ts => ulongSub M now ts) id
        = specDisconnectDue r (fun ts => now - ts) id := by
      intro id
      simp only [specDisconnectDue]
      cases hacq : clicker_AcquireOwnership r id with
      | none => rfl
      | some clk =>
        have hmem : clk ∈ r := List.mem_of_find?_eq_some hacq
        simp only [ulongSub_of_le hnow (hpast clk hmem)]
    have hfun : specDisconnectDue r (fun ts => ulongSub M now ts)
        = specDisconnectDue r (fun ts => now - ts) := funext hsame
    rw [hloop, hfun]
    exact ⟨rfl, fun id => count_filter_of_nodup hnd _ id⟩

/-- Witness of C15: devices 7, 9 and 11 connected at time 10000; 7 was
provisioned at 100, 9 at 9000, 11 is not in the registry. -/
theorem C15_watchdog_disconnects_each_due_device_once_witness :
    ([7, 9, 11] : List Int).Nodup ∧ (10000 : Nat) < 4294967296 ∧
    CheckForFinishedProvisionings 4294967296 ⟨[7, 9, 11], 0⟩
        [⟨7, "seven", false, 100, 0⟩, ⟨9, "nine", false, 9000, 0⟩] (fun _ => 10000)
      = ([7, 9, 11] : List Int).filter
          (specDisconnectDue [⟨7, "seven", false, 100, 0⟩, ⟨9, "nine", false, 9000, 0⟩]
            (fun ts => ulongSub 4294967296 10000 ts)) ∧
    CheckForFinishedProvisionings 4294967296 ⟨[7, 9, 11], 0⟩
        [⟨7, "seven", false, 100, 0⟩, ⟨9, "nine", false, 9000, 0⟩] (fun _ => 10000) = [7] :=
  ⟨by decide, by decide,
   (C15_watchdog_disconnects_each_due_device_once 4294967296 ⟨[7, 9, 11], 0⟩
      [⟨7, "seven", false, 100, 0⟩, ⟨9, "nine", false, 9000, 0⟩] 10000
      (by decide) (by decide)).1,
   by decide⟩

/-! ## `tick` without a selected device in the registry -/

/-- C16: `controls_Update` (tick) when the lookup of the selected id fails.  For
every state, blink phase, registry and clock, if the id reported as selected
(the sentinel -1 when nothing is selected) has no record in the registry, the
function returns right after the lookup: the blink statics are unchanged, no
LED driver call is made and no device is disconnected.  In particular on the
empty sequence the indicator hardware is not released, although `SetLeds`
would release it. -/
theorem C16_tick_returns_after_failed_lookup (M : Nat) (c : Controls) (b : Blink)
    (r : Registry) (now : Nat) (clock : Nat → Nat) :
    (∀ id : Int, controls_GetSelectedClickerId c = some id →
      clicker_AcquireOwnership r id = none →
      controls_Update M c b r now clock = some (b, [], [])) ∧
    (c.connectedClickersId = [] → c.selectedClickerIndex = -1 →
      clicker_AcquireOwnership r (-1) = none →
      controls_Update M c b r now clock = some (b, [], []) ∧
      SetLeds c b.activeLedOn = [LedCall.led_release]) := by
  have hmain : ∀ id : Int, controls_GetSelectedClickerId c = some id →
      clicker_AcquireOwnership r id = none →
      controls_Update M c b r now clock = some (b, [], []) := by
    intro id hsel hacq
    simp only [controls_Update, hsel, hacq]
  refine ⟨hmain, ?_⟩
  intro hnil hidx hacq
  have hsel : controls_GetSelectedClickerId c = some (-1) := by
    simp only [controls_GetSelectedClickerId, hidx]
    rfl
  refine ⟨hmain (-1) hsel hacq, ?_⟩
  simp only [SetLeds, hnil, List.length_nil, if_true]

/-- Witness of C16: the initial controller state with one device record in the
registry, and a selected device 7 that the registry does not hold while the
connected device 9 was provisioned long ago. -/
theorem C16_tick_returns_after_failed_lookup_witness :
    controls_Update 4294967296 ⟨[], -1⟩ ⟨true, 0⟩ [⟨9, "nine", false, 100, 0⟩] 10000
        (fun _ => 10000) = some (⟨true, 0⟩, [], []) ∧
    SetLeds ⟨[], -1⟩ true = [LedCall.led_release] ∧
    controls_Update 4294967296 ⟨[7, 9], 0⟩ ⟨true, 0⟩ [⟨9, "nine", false, 100, 0⟩] 10000
        (fun _ => 10000) = some (⟨true, 0⟩, [], []) ∧
    CheckForFinishedProvisionings 4294967296 ⟨[7, 9], 0⟩ [⟨9, "nine", false, 100, 0⟩]
        (fun _ => 10000) = [9] :=
  ⟨((C16_tick_returns_after_failed_lookup 4294967296 ⟨[], -1⟩ ⟨true, 0⟩
      [⟨9, "nine", false, 100, 0⟩] 10000 (fun _ => 10000)).2 rfl rfl (by decide)).1,
   ((C16_tick_returns_after_failed_lookup 4294967296 ⟨[], -1⟩ ⟨true, 0⟩
      [⟨9, "nine", false, 100, 0⟩] 10000 (fun _ => 10000)).2 rfl rfl (by decide)).2,
   (C16_tick_returns_after_failed_lookup 4294967296 ⟨[7, 9], 0⟩ ⟨true, 0⟩
      [⟨9, "nine", false, 100, 0⟩] 10000 (fun _ => 10000)).1 7 (by decide) (by decide),
   by decide⟩

/-! ## The shutdown sweep -/

theorem g_slist_remove_head (block : UBusMemoryBlock) (rest : List UBusMemoryBlock) :
    ReleaseUBusMemoryBlock (block :: rest) block.addr = rest := by
  simp [ReleaseUBusMemoryBlock, g_slist_remove]

theorem sweep_all_flagged (mem : List UBusMemoryBlock) (h : ∀ b ∈ mem, b.toDelete = true) :
    ubusagent_Destroy.sweep (mem.length + 1) mem = some (mem, []) := by
  induction mem with
  | nil => rfl
  | cons block rest ih =>
    have hb : block.toDelete = true := h block (List.mem_cons_self block rest)
    have hrest : ∀ b ∈ rest, b.toDelete = true :=
      fun b hb => h b (List.mem_cons_of_mem block hb)
    simp only [List.length_cons, ubusagent_Destroy.sweep, hb, if_true, g_slist_remove_head,
      ih hrest]

theorem sweep_never_ends (mem : List UBusMemoryBlock)
    (h : ∃ b ∈ mem, b.toDelete = false) :
    ∀ fuel, ubusagent_Destroy.sweep fuel mem = none := by
  induction mem with
  | nil => obtain ⟨b, hb, _⟩ := h; simp at hb
  | cons block rest ih =>
    intro fuel
    induction fuel with
    | zero => rfl
    | succ fuel ihf =>
      by_cases hb : block.toDelete = true
      · have hrest : ∃ b ∈ rest, b.toDelete = false := by
          obtain ⟨x, hx, hxf⟩ := h
          rcases List.mem_cons.1 hx with rfl | hx
          · rw [hb] at hxf; exact absurd hxf (by decide)
          · exact ⟨x, hx, hxf⟩
        simp only [ubusagent_Destroy.sweep, hb, if_true, g_slist_remove_head, ih hrest fuel]
      · simp only [ubusagent_Destroy.sweep, hb]
        exact ihf

/-- C17: the shutdown sweep of `ubusagent_Destroy`.  When every object of the
collection has its ready-for-reclamation flag set, the loop ends after
`length + 1` tests of its condition, having released every object once, in
order, and the collection is empty.  When some object has the flag clear, the
loop never ends: for every number of tests of its condition it is still
running (it keeps testing the flag of the first unflagged object). -/
theorem C17_shutdown_sweep_spins_on_unflagged_object (a : UBusAgent) :
    ((∀ b ∈ a.UBusRequestMemory, b.toDelete = true) →
      ubusagent_Destroy.sweep (a.UBusRequestMemory.length + 1) a.UBusRequestMemory
        = some (a.UBusRequestMemory, []) ∧
      ∃ a1 : UBusAgent,
        ubusagent_Destroy (a.UBusRequestMemory.length + 1) a
          = some (a1, a.UBusRequestMemory) ∧
        a1.UBusRequestMemory = [] ∧ a1.UBusRunning = false ∧ a1.UBusInterruption = false) ∧
    ((∃ b ∈ a.UBusRequestMemory, b.toDelete = false) →
      ∀ fuel : Nat,
        ubusagent_Destroy.sweep fuel a.UBusRequestMemory = none ∧
        ubusagent_Destroy fuel a = none) := by
  constructor
  · intro h
    have hs := sweep_all_flagged a.UBusRequestMemory h
    refine ⟨hs, ⟨{ UBusRunning := false, UBusInterruption := false,
                   UBusInInterState := a.UBusInInterState, uloop_cancelled := false,
                   UBusRequestMemory := [] }, ?_, rfl, rfl, rfl⟩⟩
    simp only [ubusagent_Destroy, SetUBusRunning, SetUBusLoopInterruption, hs]
  · intro h fuel
    have hs := sweep_never_ends a.UBusRequestMemory h fuel
    refine ⟨hs, ?_⟩
    simp only [ubusagent_Destroy, SetUBusRunning, SetUBusLoopInterruption, hs]

/-- Witness of C17: at shutdown one request is still waiting for its reply. -/
theorem C17_shutdown_sweep_spins_on_unflagged_object_witness :
    (∃ b ∈ (UBusAgent.mk true false false false [⟨100, 7, false⟩]).UBusRequestMemory,
      b.toDelete = false) ∧
    ubusagent_Destroy 1000 ⟨true, false, false, false, [⟨100, 7, false⟩]⟩ = none :=
  ⟨by decide,
   ((C17_shutdown_sweep_spins_on_unflagged_object
      ⟨true, false, false, false, [⟨100, 7, false⟩]⟩).2 (by decide) 1000).2⟩

/-! ## `initialize` -/

/-- C18, counterexample: after `controls_init` on a prior state with device 7
selected (cursor 0), the sequence is empty but the cursor is still 0, not the
sentinel -1. -/
theorem C18_init_keeps_prior_cursor_counterexample :
    (controls_init ⟨[7], 0⟩ true).connectedClickersId = [] ∧
    (controls_init ⟨[7], 0⟩ true).selectedClickerIndex = 0 ∧
    ¬ ((controls_init ⟨[7], 0⟩ true).connectedClickersId = [] ∧
       (controls_init ⟨[7], 0⟩ true).selectedClickerIndex = -1) := by
  decide

/-- C18, amended: for every prior controller state and either value of
`enableButtons`, after `controls_init` the connected-device sequence is empty
and the cursor has the value it had before; it is the sentinel -1 when it was
-1 before, as it is at program start, where the static initialiser sets it. -/
theorem C18_init_empties_sequence_keeps_cursor (c : Controls) (enableButtons : Bool) :
    (controls_init c enableButtons).connectedClickersId = [] ∧
    (controls_init c enableButtons).selectedClickerIndex = c.selectedClickerIndex ∧
    (c.selectedClickerIndex = -1 →
      controls_init c enableButtons
        = { connectedClickersId := [], selectedClickerIndex := -1 }) ∧
    controls_init Controls.statics enableButtons
      = { connectedClickersId := [], selectedClickerIndex := -1 } := by
  refine ⟨rfl, rfl, ?_, rfl⟩
  intro h
  simp only [controls_init, h]

/-- Witness of C18 (amended): a prior state with two devices and nothing
selected. -/
theorem C18_init_empties_sequence_keeps_cursor_witness :
    controls_init ⟨[7, 9], -1⟩ false
      = { connectedClickersId := [], selectedClickerIndex := -1 } :=
  (C18_init_empties_sequence_keeps_cursor ⟨[7, 9], -1⟩ false).2.2.1 rfl

/-! ## The housekeeping step of the loop thread -/

/-- C20, counterexample: with an unflagged object first and a flagged object
behind it, a flagged object is present but the housekeeping step releases
nothing and leaves the collection as it is. -/
theorem C20_housekeeping_flagged_behind_unflagged_counterexample :
    (∃ b ∈ [UBusMemoryBlock.mk 100 7 false, UBusMemoryBlock.mk 101 9 true],
      b.toDelete = true) ∧
    PDUbusLoop.housekeeping [⟨100, 7, false⟩, ⟨101, 9, true⟩]
      = (none, [⟨100, 7, false⟩, ⟨101, 9, true⟩]) := by
  decide

/-- C20, amended: one housekeeping step looks only at the first object of the
collection.  It releases that object when its ready-for-reclamation flag is
set, the collection becoming the remaining objects; otherwise, and on the empty
collection, it releases nothing and the collection is unchanged.  So it
releases at most one object, never an unflagged one, and nothing when no
object is flagged. -/
theorem C20_housekeeping_releases_flagged_head_only (mem : List UBusMemoryBlock) :
    (∀ block rest, mem = block :: rest → block.toDelete = true →
      PDUbusLoop.housekeeping mem = (some block, rest)) ∧
    (∀ block rest, mem = block :: rest → block.toDelete = false →
      PDUbusLoop.housekeeping mem = (none, mem)) ∧
    (mem = [] → PDUbusLoop.housekeeping mem = (none, [])) ∧
    (∀ b, (PDUbusLoop.housekeeping mem).1 = some b →
      b.toDelete = true ∧ mem = b :: (PDUbusLoop.housekeeping mem).2) ∧
    ((PDUbusLoop.housekeeping mem).1 = none → (PDUbusLoop.housekeeping mem).2 = mem) ∧
    ((∀ b ∈ mem, b.toDelete = false) → PDUbusLoop.housekeeping mem = (none, mem)) ∧
    (∀ b ∈ mem, b.toDelete = false → b ∈ (PDUbusLoop.housekeeping mem).2) := by
  cases mem with
  | nil =>
    refine ⟨?_, ?_, fun _ => rfl, ?_, fun _ => rfl, fun _ => rfl, ?_⟩
    · intro block rest h; exact absurd h (by simp)
    · intro block rest h; exact absurd h (by simp)
    · intro b h; simp [PDUbusLoop.housekeeping] at h
    · intro b hb; simp at hb
  | cons head tail =>
    by_cases hh : head.toDelete = true
    · have hk : PDUbusLoop.housekeeping (head :: tail) = (some head, tail) := by
        simp only [PDUbusLoop.housekeeping, hh, if_true, g_slist_remove_head]
      refine ⟨?_, ?_, ?_, ?_, ?_, ?_, ?_⟩
      · intro block rest h _
        obtain ⟨h1, h2⟩ := List.cons.inj h
        subst h1 h2
        exact hk
      · intro block rest h hf
        obtain ⟨h1, _⟩ := List.cons.inj h
        subst h1
        rw [hh] at hf
        exact absurd hf (by decide)
      · intro h; exact absurd h (by simp)
      · intro b hb
        rw [hk] at hb ⊢
        have : head = b := Option.some.inj hb
        subst this
        exact ⟨hh, rfl⟩
      · intro hnone
        rw [hk] at hnone
        exact absurd hnone (by simp)
      · intro hall
        have := hall head (List.mem_cons_self head tail)
        rw [hh] at this
        exact absurd this (by decide)
      · intro b hb hbf
        rw [hk]
        rcases List.mem_cons.1 hb with rfl | hb
        · rw [hh] at hbf; exact absurd hbf (by decide)
        · exact hb
    · have hk : PDUbusLoop.housekeeping (head :: tail) = (none, head :: tail) := by
        simp only [PDUbusLoop.housekeeping, hh]
        rfl
      refine ⟨?_, ?_, ?_, ?_, ?_, ?_, ?_⟩
      · intro block rest h hf
        obtain ⟨h1, _⟩ := List.cons.inj h
        subst h1
        exact absurd hf hh
      · intro block rest _ _
        exact hk
      · intro h; exact absurd h (by simp)
      · intro b hb
        rw [hk] at hb
        exact absurd hb (by simp)
      · intro _
        rw [hk]
      · intro _
        exact hk
      · intro b hb _
        rw [hk]
        exact hb

/-- Witness of C20 (amended): a flagged first object is released, the unflagged
object behind it stays. -/
theorem C20_housekeeping_releases_flagged_head_only_witness :
    ([UBusMemoryBlock.mk 101 9 true, UBusMemoryBlock.mk 100 7 false]
      = UBusMemoryBlock.mk 101 9 true :: [UBusMemoryBlock.mk 100 7 false]) ∧
    PDUbusLoop.housekeeping [⟨101, 9, true⟩, ⟨100, 7, false⟩]
      = (some ⟨101, 9, true⟩, [⟨100, 7, false⟩]) :=
  ⟨rfl,
   (C20_housekeeping_releases_flagged_head_only [⟨101, 9, true⟩, ⟨100, 7, false⟩]).1
     ⟨101, 9, true⟩ [⟨100, 7, false⟩] rfl rfl⟩

/-! ## The indicator mask -/

theorem maskLoop_of_le_eight {n : Nat} (h : n ≤ 8) : SetLeds.maskLoop n = 2 ^ n - 1 := by
  interval_cases n <;> rfl

theorem or_bit_above_eight {i : Nat} (h : 8 ≤ i) : (255 ||| (1 <<< i)) % 256 = 255 := by
  have key : ((2 ^ 8 - 1) ||| 2 ^ i) % 2 ^ 8 = 2 ^ 8 - 1 := by
    apply Nat.eq_of_testBit_eq
    intro k
    rw [Nat.testBit_mod_two_pow, Nat.testBit_or, Nat.testBit_two_pow,
      Nat.testBit_two_pow_sub_one]
    by_cases hk : k < 8
    · have hne : ¬ i = k := by omega
      rw [decide_eq_true hk, decide_eq_false hne]
      rfl
    · rw [decide_eq_false hk]
      rfl
  rw [Nat.one_shiftLeft]
  exact key

theorem maskLoop_of_eight_le {n : Nat} (h : 8 ≤ n) : SetLeds.maskLoop n = 255 := by
  induction n, h using Nat.le_induction with
  | base => rfl
  | succ m hm ih =>
    simp only [SetLeds.maskLoop, ih]
    exact or_bit_above_eight hm

theorem testBit_mask_xor (n k i : Nat) :
    (((2 ^ n - 1) ^^^ (2 ^ k)).testBit i = true) ↔ ¬ ((i < n) ↔ (i = k)) := by
  rw [Nat.testBit_xor, Nat.testBit_two_pow_sub_one, Nat.testBit_two_pow]
  by_cases h2 : k = i
  · subst h2
    by_cases h1 : k < n <;> simp [h1]
  · have h3 : ¬ i = k := fun e => h2 e.symm
    by_cases h1 : i < n <;> simp [h1, h2, h3]

/-- C21: the mask `SetLeds` passes to `led_set`, for every sequence length `n`
with `1 ≤ n ≤ 8`, every cursor value and every blink phase: it is `2 ^ n - 1`
with bit `cursor` inverted when the phase is active and `0 ≤ cursor < 8`, and
`2 ^ n - 1` itself otherwise; it fits 8 bits; and its bit `i` is set exactly
when `i < n` differs from (phase active and `0 ≤ cursor < 8` and `i = cursor`).
For `n > 8` the mask before the inversion is 255, all 8 positions set.  A tick
that finds the selected device in the registry renders the mask of `SetLeds`
for the blink phase it has just computed. -/
theorem C21_led_mask_bits (c : Controls) (phase : Bool)
    (hpos : 1 ≤ c.connectedClickersId.length) :
    (c.connectedClickersId.length ≤ 8 →
      ∃ mask : Nat,
        SetLeds c phase = [LedCall.led_init, LedCall.led_set mask] ∧
        mask < 256 ∧
        mask = (if 0 ≤ c.selectedClickerIndex ∧ c.selectedClickerIndex < 8 ∧ phase = true
                then (2 ^ c.connectedClickersId.length - 1)
                       ^^^ (2 ^ c.selectedClickerIndex.toNat)
                else 2 ^ c.connectedClickersId.length - 1) ∧
        ∀ i : Nat, mask.testBit i = true ↔
          ¬ ((i < c.connectedClickersId.length) ↔
             (phase = true ∧ 0 ≤ c.selectedClickerIndex ∧ c.selectedClickerIndex < 8
               ∧ (i : Int) = c.selectedClickerIndex))) ∧
    (8 < c.connectedClickersId.length →
      SetLeds.maskLoop c.connectedClickersId.length = 255 ∧
      SetLeds c phase
        = [LedCall.led_init,
           LedCall.led_set
             (if 0 ≤ c.selectedClickerIndex ∧ c.selectedClickerIndex < 8 ∧ phase = true
              then (255 ^^^ (2 ^ c.selectedClickerIndex.toNat)) % 256 else 255)]) ∧
    (∀ (M : Nat) (b : Blink) (r : Registry) (now : Nat) (clock : Nat → Nat) (id : Int)
        (clicker : Clicker),
      controls_GetSelectedClickerId c = some id →
      clicker_AcquireOwnership r id = some clicker →
      ∃ (b1 : Blink) (disconnected : List Int),
        controls_Update M c b r now clock
          = some (b1, SetLeds c b1.activeLedOn, disconnected)) := by
  have hne : ¬ c.connectedClickersId.length = 0 := by omega
  refine ⟨?_, ?_, ?_⟩
  · intro h8
    have hloop := maskLoop_of_le_eight h8
    have hfull : 2 ^ c.connectedClickersId.length - 1 < 2 ^ 8 := by
      have : 2 ^ c.connectedClickersId.length ≤ 2 ^ 8 :=
        Nat.pow_le_pow_right (by decide) h8
      have : 0 < 2 ^ c.connectedClickersId.length := Nat.two_pow_pos _
      omega
    by_cases hcond : 0 ≤ c.selectedClickerIndex ∧ c.selectedClickerIndex < 8 ∧ phase = true
    · obtain ⟨hc0, hc8, hph⟩ := hcond
      have hk : c.selectedClickerIndex.toNat < 8 := by omega
      have hbit : 2 ^ c.selectedClickerIndex.toNat < 2 ^ 8 :=
        Nat.pow_lt_pow_right (by decide) hk
      have hlt : (2 ^ c.connectedClickersId.length - 1)
          ^^^ (2 ^ c.selectedClickerIndex.toNat) < 2 ^ 8 := Nat.xor_lt_two_pow hfull hbit
      refine ⟨(2 ^ c.connectedClickersId.length - 1) ^^^ (2 ^ c.selectedClickerIndex.toNat),
        ?_, hlt, ?_, ?_⟩
      · have hcond2 : c.selectedClickerIndex ≥ 0 ∧ c.selectedClickerIndex < 8 ∧ phase = true :=
          ⟨hc0, hc8, hph⟩
        have hlt256 : (2 ^ c.connectedClickersId.length - 1)
            ^^^ (2 ^ c.selectedClickerIndex.toNat) < 256 := hlt
        simp only [SetLeds, if_neg hne, hloop, if_pos hcond2, Nat.one_shiftLeft]
        rw [Nat.mod_eq_of_lt hlt256]
      · rw [if_pos ⟨hc0, hc8, hph⟩]
      · intro i
        rw [testBit_mask_xor]
        have hiff : (i = c.selectedClickerIndex.toNat) ↔
            (phase = true ∧ 0 ≤ c.selectedClickerIndex ∧ c.selectedClickerIndex < 8
              ∧ (i : Int) = c.selectedClickerIndex) := by
          constructor
          · intro h; exact ⟨hph, hc0, hc8, by omega⟩
          · intro h; omega
        rw [hiff]
    · refine ⟨2 ^ c.connectedClickersId.length - 1, ?_, hfull, ?_, ?_⟩
      · have hcond2 :
            ¬ (c.selectedClickerIndex ≥ 0 ∧ c.selectedClickerIndex < 8 ∧ phase = true) :=
          hcond
        simp only [SetLeds, if_neg hne, hloop, if_neg hcond2]
      · rw [if_neg hcond]
      · intro i
        rw [Nat.testBit_two_pow_sub_one]
        have hfalse : ¬ (phase = true ∧ 0 ≤ c.selectedClickerIndex
            ∧ c.selectedClickerIndex < 8 ∧ (i : Int) = c.selectedClickerIndex) :=
          fun h => hcond ⟨h.2.1, h.2.2.1, h.1⟩
        simp [hfalse]
  · intro h8
    have hloop := maskLoop_of_eight_le (Nat.le_of_lt h8)
    refine ⟨hloop, ?_⟩
    by_cases hcond : 0 ≤ c.selectedClickerIndex ∧ c.selectedClickerIndex < 8 ∧ phase = true
    · have hcond2 : c.selectedClickerIndex ≥ 0 ∧ c.selectedClickerIndex < 8 ∧ phase = true :=
        hcond
      simp only [SetLeds, if_neg hne, hloop, if_pos hcond2, if_pos hcond, Nat.one_shiftLeft]
    · have hcond2 :
          ¬ (c.selectedClickerIndex ≥ 0 ∧ c.selectedClickerIndex < 8 ∧ phase = true) := hcond
      simp only [SetLeds, if_neg hne, hloop, if_neg hcond2, if_neg hcond]
  · intro M b r now clock id clicker hsel hacq
    simp only [controls_Update, hsel, hacq]
    exact ⟨_, _, rfl⟩

/-- Witness of C21: three devices, the second selected, active phase: the mask
is `0b101`. -/
theorem C21_led_mask_bits_witness :
    1 ≤ (Controls.mk [7, 9, 11] 1).connectedClickersId.length ∧
    (Controls.mk [7, 9, 11] 1).connectedClickersId.length ≤ 8 ∧
    SetLeds ⟨[7, 9, 11], 1⟩ true = [LedCall.led_init, LedCall.led_set 5] ∧
    ∃ mask : Nat,
      SetLeds ⟨[7, 9, 11], 1⟩ true = [LedCall.led_init, LedCall.led_set mask] ∧
      mask < 256 :=
  ⟨by decide, by decide, by decide,
   match (C21_led_mask_bits ⟨[7, 9, 11], 1⟩ true (by decide)).1 (by decide) with
   | ⟨mask, h1, h2, _⟩ => ⟨mask, h1, h2⟩⟩

/-! ## The blink update -/

/-- C22: a tick in which the selected device is found in the registry, with
clock value `now` and last-flip timestamp `last` (`unsigned long` arithmetic
modulo `M`).  The blink interval is 100 ms when the provisioning-in-progress
flag of the device is set and 500 ms otherwise; when `now - last` exceeds the
interval the phase is negated and `last` becomes `now`; otherwise phase and
`last` are unchanged.  The difference is the plain one when `last ≤ now < M`. -/
theorem C22_blink_interval_and_phase_flip (M : Nat) (c : Controls) (b : Blink)
    (r : Registry) (now : Nat) (clock : Nat → Nat) (id : Int) (clicker : Clicker)
    (hsel : controls_GetSelectedClickerId c = some id)
    (hacq : clicker_AcquireOwnership r id = some clicker) :
    ∃ (b1 : Blink) (leds : List LedCall) (disconnected : List Int),
      controls_Update M c b r now clock = some (b1, leds, disconnected) ∧
      (clicker.provisioningInProgress = true →
        (ulongSub M now b.LastBlinkTime > 100 →
          b1 = { activeLedOn := !b.activeLedOn, LastBlinkTime := now }) ∧
        (¬ ulongSub M now b.LastBlinkTime > 100 → b1 = b)) ∧
      (clicker.provisioningInProgress = false →
        (ulongSub M now b.LastBlinkTime > 500 →
          b1 = { activeLedOn := !b.activeLedOn, LastBlinkTime := now }) ∧
        (¬ ulongSub M now b.LastBlinkTime > 500 → b1 = b)) ∧
      (b.LastBlinkTime ≤ now → now < M →
        ulongSub M now b.LastBlinkTime = now - b.LastBlinkTime) := by
  refine ⟨_, _, _, by simp only [controls_Update, hsel, hacq]; rfl, ?_, ?_, ?_⟩
  · intro hprov
    simp only [hprov, if_true, LED_FAST_BLINK_INTERVAL_MS]
    exact ⟨fun h => by rw [if_pos h], fun h => by rw [if_neg h]⟩
  · intro hprov
    simp only [hprov, LED_SLOW_BLINK_INTERVAL_MS]
    exact ⟨fun h => by simp [h], fun h => by simp [h]⟩
  · intro hle hlt
    exact ulongSub_of_le hlt hle

/-- Witness of C22: device 9 selected and being provisioned, last flip at 1000,
clock at 1101: the phase flips. -/
theorem C22_blink_interval_and_phase_flip_witness :
    controls_GetSelectedClickerId ⟨[7, 9], 1⟩ = some 9 ∧
    clicker_AcquireOwnership [⟨9, "nine", true, 0, 0⟩] 9 = some ⟨9, "nine", true, 0, 0⟩ ∧
    controls_Update 4294967296 ⟨[7, 9], 1⟩ ⟨true, 1000⟩ [⟨9, "nine", true, 0, 0⟩] 1101
        (fun _ => 1101)
      = some (⟨false, 1101⟩, [LedCall.led_init, LedCall.led_set 3], []) ∧
    ∃ (b1 : Blink) (leds : List LedCall) (disconnected : List Int),
      controls_Update 4294967296 ⟨[7, 9], 1⟩ ⟨true, 1000⟩ [⟨9, "nine", true, 0, 0⟩] 1101
        (fun _ => 1101) = some (b1, leds, disconnected) :=
  ⟨by decide, by decide, by decide,
   match C22_blink_interval_and_phase_flip 4294967296 ⟨[7, 9], 1⟩ ⟨true, 1000⟩
       [⟨9, "nine", true, 0, 0⟩] 1101 (fun _ => 1101) 9 ⟨9, "nine", true, 0, 0⟩
       (by decide) (by decide) with
   | ⟨b1, leds, d, h, _⟩ => ⟨b1, leds, d, h⟩⟩

/-! ## Duplicates and order of the connected-device sequence -/

theorem remove_index_sublist (a : List Int) (index : Nat) :
    (g_array_remove_index a index).Sublist a := by
  unfold g_array_remove_index
  split
  · exact List.eraseIdx_sublist a index
  · exact List.Sublist.refl a

theorem destroy_sublist (c : Controls) (id : Int) :
    ((controls_ConsumeEvent c ⟨EventType.CLICKER_DESTROY, id⟩).1.connectedClickersId).Sublist
      c.connectedClickersId := by
  simp only [controls_ConsumeEvent, RemoveClickerWithID, ge_iff_le, Nat.zero_le, if_true]
  split <;> exact remove_index_sublist _ _

theorem run_sublist_created (events : List Event) :
    ∀ c : Controls,
      (∀ e ∈ events, e.type = EventType.CLICKER_CREATE ∨ e.type = EventType.CLICKER_DESTROY) →
      ((runEvents c events).connectedClickersId).Sublist
        (c.connectedClickersId ++ createdIds events) := by
  induction events with
  | nil =>
    intro c _
    simp [runEvents, createdIds]
  | cons e rest ih =>
    intro c hall
    have he := hall e (List.mem_cons_self e rest)
    have hrest : ∀ x ∈ rest,
        x.type = EventType.CLICKER_CREATE ∨ x.type = EventType.CLICKER_DESTROY :=
      fun x hx => hall x (List.mem_cons_of_mem e hx)
    have hnext := ih (controls_ConsumeEvent c e).1 hrest
    have hrun : runEvents c (e :: rest) = runEvents (controls_ConsumeEvent c e).1 rest := rfl
    rw [hrun]
    rcases e with ⟨ty, n⟩
    rcases he with he | he
    · simp only at he
      subst he
      have hids : (controls_ConsumeEvent c ⟨EventType.CLICKER_CREATE, n⟩).1.connectedClickersId
          = c.connectedClickersId ++ [n] := rfl
      rw [hids] at hnext
      have hcr : createdIds (⟨EventType.CLICKER_CREATE, n⟩ :: rest) = n :: createdIds rest := by
        simp [createdIds]
      rw [hcr]
      simpa using hnext
    · simp only at he
      subst he
      have hcr : createdIds (⟨EventType.CLICKER_DESTROY, n⟩ :: rest) = createdIds rest := by
        simp [createdIds]
      rw [hcr]
      exact hnext.trans (List.Sublist.append_right (destroy_sublist c n) _)

theorem run_nodup_of_fresh (events : List Event) :
    ∀ c : Controls,
      (∀ e ∈ events, e.type = EventType.CLICKER_CREATE ∨ e.type = EventType.CLICKER_DESTROY) →
      c.connectedClickersId.Nodup → createsAreFresh c events = true →
      (runEvents c events).connectedClickersId.Nodup := by
  induction events with
  | nil => intro c _ hnd _; exact hnd
  | cons e rest ih =>
    intro c hall hnd hfresh
    have he := hall e (List.mem_cons_self e rest)
    have hrest : ∀ x ∈ rest,
        x.type = EventType.CLICKER_CREATE ∨ x.type = EventType.CLICKER_DESTROY :=
      fun x hx => hall x (List.mem_cons_of_mem e hx)
    simp only [createsAreFresh, Bool.and_eq_true] at hfresh
    obtain ⟨hfirst, hlater⟩ := hfresh
    have hrun : runEvents c (e :: rest) = runEvents (controls_ConsumeEvent c e).1 rest := rfl
    rw [hrun]
    apply ih _ hrest _ hlater
    rcases e with ⟨ty, n⟩
    rcases he with he | he
    · simp only at he
      subst he
      have hids : (controls_ConsumeEvent c ⟨EventType.CLICKER_CREATE, n⟩).1.connectedClickersId
          = c.connectedClickersId ++ [n] := rfl
      have hnot : n ∉ c.connectedClickersId := by simpa using hfirst
      rw [hids]
      exact List.Nodup.append hnd (List.nodup_singleton n)
        (fun x hx hx1 => hnot (by rw [List.mem_singleton] at hx1; exact hx1 ▸ hx))
    · simp only at he
      subst he
      exact (destroy_sublist c n).nodup hnd

/-- C23, counterexample: the run create(7), create(7) from the initial state
consists of device-created events only and leaves the sequence `[7, 7]`, which
contains the id 7 twice. -/
theorem C23_create_twice_duplicates_counterexample :
    (∀ e ∈ [Event.mk EventType.CLICKER_CREATE 7, Event.mk EventType.CLICKER_CREATE 7],
      e.type = EventType.CLICKER_CREATE ∨ e.type = EventType.CLICKER_DESTROY) ∧
    (runEvents initialControls
      [⟨EventType.CLICKER_CREATE, 7⟩, ⟨EventType.CLICKER_CREATE, 7⟩]).connectedClickersId
      = [7, 7] ∧
    ¬ (runEvents initialControls
      [⟨EventType.CLICKER_CREATE, 7⟩, ⟨EventType.CLICKER_CREATE, 7⟩]).connectedClickersId.Nodup := by
  decide

/-- C23, amended: for every finite run of device-created and device-destroyed
events from the initial state, the ids of the connected-device sequence appear
in the order in which they were created (the sequence is a subsequence of the
ids of the device-created events); and the sequence contains no id more than
once provided no device-created event carries an id that is in the sequence
at that moment. -/
theorem C23_sequence_in_creation_order_nodup_if_fresh (events : List Event)
    (hkinds : ∀ e ∈ events,
      e.type = EventType.CLICKER_CREATE ∨ e.type = EventType.CLICKER_DESTROY) :
    ((runEvents initialControls events).connectedClickersId).Sublist (createdIds events) ∧
    (createsAreFresh initialControls events = true →
      (runEvents initialControls events).connectedClickersId.Nodup) := by
  constructor
  · have h := run_sublist_created events initialControls hkinds
    have h0 : initialControls.connectedClickersId = [] := rfl
    rw [h0, List.nil_append] at h
    exact h
  · intro hfresh
    exact run_nodup_of_fresh events initialControls hkinds List.nodup_nil hfresh

/-- Witness of C23 (amended): create(7), create(9), destroy(7), create(7). -/
theorem C23_sequence_in_creation_order_nodup_if_fresh_witness :
    (∀ e ∈ [Event.mk EventType.CLICKER_CREATE 7, Event.mk EventType.CLICKER_CREATE 9,
            Event.mk EventType.CLICKER_DESTROY 7, Event.mk EventType.CLICKER_CREATE 7],
      e.type = EventType.CLICKER_CREATE ∨ e.type = EventType.CLICKER_DESTROY) ∧
    createsAreFresh initialControls
      [⟨EventType.CLICKER_CREATE, 7⟩, ⟨EventType.CLICKER_CREATE, 9⟩,
       ⟨EventType.CLICKER_DESTROY, 7⟩, ⟨EventType.CLICKER_CREATE, 7⟩] = true ∧
    (runEvents initialControls
      [⟨EventType.CLICKER_CREATE, 7⟩, ⟨EventType.CLICKER_CREATE, 9⟩,
       ⟨EventType.CLICKER_DESTROY, 7⟩, ⟨EventType.CLICKER_CREATE, 7⟩]).connectedClickersId
      = [9, 7] ∧
    (runEvents initialControls
      [⟨EventType.CLICKER_CREATE, 7⟩, ⟨EventType.CLICKER_CREATE, 9⟩,
       ⟨EventType.CLICKER_DESTROY, 7⟩, ⟨EventType.CLICKER_CREATE, 7⟩]).connectedClickersId.Nodup :=
  ⟨by decide, by decide, by decide,
   (C23_sequence_in_creation_order_nodup_if_fresh
      [⟨EventType.CLICKER_CREATE, 7⟩, ⟨EventType.CLICKER_CREATE, 9⟩,
       ⟨EventType.CLICKER_DESTROY, 7⟩, ⟨EventType.CLICKER_CREATE, 7⟩] (by decide)).2
     (by decide)⟩

/-! ## Lengths reported with an obtained credential -/

theorem stored_length (src : String) (N : Nat) :
    (strlcpy.stored src N).length = min (N - 1) src.length := by
  simp only [strlcpy.stored, String.length, List.length_take]

/-- C24: the credential-obtained event for a reply without error field that
holds both the identity and the secret, of any lengths.  Each field of the
event stores the first `PSK_ARRAYS_SIZE - 1` characters of its string (all of
it when it is shorter), and each reported length is at most `PSK_ARRAYS_SIZE`.
For a string shorter than `PSK_ARRAYS_SIZE` the reported length is the number
of characters stored; for a string of `PSK_ARRAYS_SIZE` characters or more the
reported length is `PSK_ARRAYS_SIZE` while only `PSK_ARRAYS_SIZE - 1`
characters are stored. -/
theorem C24_reported_psk_length_exceeds_stored (N : Nat) (mem : List UBusMemoryBlock)
    (block : UBusMemoryBlock) (msg : GeneratePskReply) (init : Option String)
    (identity secret : String)
    (herr : msg.error = none) (hid : msg.pskIdentity = some identity)
    (hsec : msg.pskSecret = some secret) :
    ∃ e : PreSharedKey,
      (GeneratePskResponseHandler N mem block msg init).2 = [Pushed.pskObtained e] ∧
      e.identity.data = identity.data.take (N - 1) ∧
      e.psk.data = secret.data.take (N - 1) ∧
      e.identityLen ≤ N ∧ e.pskLen ≤ N ∧
      (identity.length < N → e.identityLen = e.identity.length) ∧
      (secret.length < N → e.pskLen = e.psk.length) ∧
      (0 < N → N ≤ identity.length →
        e.identityLen = N ∧ e.identity.length = N - 1 ∧ e.identityLen ≠ e.identity.length) ∧
      (0 < N → N ≤ secret.length →
        e.pskLen = N ∧ e.psk.length = N - 1 ∧ e.pskLen ≠ e.psk.length) := by
  refine ⟨{ clickerId := block.clickerId,
            identity := strlcpy.stored identity N,
            identityLen := if identity.length > N then N else identity.length,
            psk := strlcpy.stored secret N,
            pskLen := if secret.length > N then N else secret.length },
    ?_, rfl, rfl, ?_, ?_, ?_, ?_, ?_, ?_⟩
  · simp only [GeneratePskResponseHandler, herr, hsec, hid]
  · show (if identity.length > N then N else identity.length) ≤ N
    split <;> omega
  · show (if secret.length > N then N else secret.length) ≤ N
    split <;> omega
  · intro h
    show (if identity.length > N then N else identity.length)
      = (strlcpy.stored identity N).length
    rw [stored_length, if_neg (by omega)]
    omega
  · intro h
    show (if secret.length > N then N else secret.length) = (strlcpy.stored secret N).length
    rw [stored_length, if_neg (by omega)]
    omega
  · intro hpos h
    have hl : (strlcpy.stored identity N).length = N - 1 := by
      rw [stored_length]; omega
    have hr : (if identity.length > N then N else identity.length) = N := by
      split <;> omega
    refine ⟨hr, hl, ?_⟩
    show (if identity.length > N then N else identity.length)
      ≠ (strlcpy.stored identity N).length
    rw [hr, hl]
    omega
  · intro hpos h
    have hl : (strlcpy.stored secret N).length = N - 1 := by
      rw [stored_length]; omega
    have hr : (if secret.length > N then N else secret.length) = N := by
      split <;> omega
    refine ⟨hr, hl, ?_⟩
    show (if secret.length > N then N else secret.length) ≠ (strlcpy.stored secret N).length
    rw [hr, hl]
    omega

/-- Witness of C24: with a maximum of 4, the identity "abcdef" and the secret
"s3cret" are stored as "abc" and "s3c" and both lengths are reported as 4. -/
theorem C24_reported_psk_length_exceeds_stored_witness :
    (GeneratePskResponseHandler 4 [⟨100, 7, false⟩] ⟨100, 7, false⟩
        ⟨none, some "abcdef", some "s3cret", none⟩ none).2
      = [Pushed.pskObtained ⟨7, "abc", 4, "s3c", 4⟩] ∧
    ∃ e : PreSharedKey,
      (GeneratePskResponseHandler 4 [⟨100, 7, false⟩] ⟨100, 7, false⟩
          ⟨none, some "abcdef", some "s3cret", none⟩ none).2 = [Pushed.pskObtained e] ∧
      e.identityLen ≠ e.identity.length :=
  ⟨by decide,
   match C24_reported_psk_length_exceeds_stored 4 [⟨100, 7, false⟩] ⟨100, 7, false⟩
       ⟨none, some "abcdef", some "s3cret", none⟩ none "abcdef" "s3cret" rfl rfl rfl with
   | ⟨e, h1, _, _, _, _, _, _, h8, _⟩ => ⟨e, h1, (h8 (by decide) (by decide)).2.2⟩⟩

/-! ## The selection after the removal of another device -/

theorem destroy_found {ids : List Int} {idx : Int} {id : Int} {j : Nat}
    (hf : findLoop id 0 ids = some j) (h0 : 0 ≤ idx)
    (hlen : ids.length < 2147483648) (hlt : idx < (ids.length : Int)) :
    (controls_ConsumeEvent ⟨ids, idx⟩ ⟨EventType.CLICKER_DESTROY, id⟩).1
      = ⟨ids.eraseIdx j, min idx (((ids.eraseIdx j).length : Int) - 1)⟩ := by
  obtain ⟨_, hj, _, _⟩ := findLoop_some id ids 0 j hf
  simp only [Nat.sub_zero] at hj
  have hle : (ids.eraseIdx j).length ≤ ids.length := List.length_eraseIdx_le ids j
  have hc := @clamp_after_remove idx (ids.eraseIdx j).length (by omega) (by omega) (by omega)
    (fun hm => by omega)
  simp only [ge_iff_le] at hc
  simp only [controls_ConsumeEvent, RemoveClickerWithID, hf, Option.getD_some, ge_iff_le,
    Nat.zero_le, if_true, g_array_remove_index, if_pos hj]
  split
  · rename_i hge
    rw [if_pos hge] at hc
    rw [hc]
  · rename_i hge
    rw [if_neg hge] at hc
    rw [← hc]

theorem destroy_absent {ids : List Int} {idx : Int} {id : Int}
    (hf : findLoop id 0 ids = none) (h0 : 0 ≤ idx)
    (hlen : ids.length < 2147483648) (hlt : idx < (ids.length : Int)) :
    (controls_ConsumeEvent ⟨ids, idx⟩ ⟨EventType.CLICKER_DESTROY, id⟩).1 = ⟨ids, idx⟩ := by
  have hnot : ¬ (4294967295 < ids.length) := by omega
  have hu : toUInt idx = idx.toNat := toUInt_of_range h0 (by omega)
  have hge : ¬ (ids.length ≤ toUInt idx) := by rw [hu]; omega
  simp only [controls_ConsumeEvent, RemoveClickerWithID, hf, Option.getD_none, ge_iff_le,
    Nat.zero_le, if_true, g_array_remove_index, if_neg hnot, if_neg hge]

theorem selected_of_valid {ids : List Int} {idx : Int} (h0 : 0 ≤ idx) :
    controls_GetSelectedClickerId ⟨ids, idx⟩ = ids[idx.toNat]? := by
  have hneg : ¬ idx < 0 := by omega
  simp only [controls_GetSelectedClickerId, if_neg hneg]

/-- C25, counterexample: in the duplicate-free sequence `[7, 9, 11]` with
device 9 selected (cursor 1), destroying device 7, which is not the selected
one, leaves `[9, 11]` with the cursor still 1: the selected id reported changes
from 9 to 11. -/
theorem C25_destroy_earlier_device_moves_selection_counterexample :
    ([7, 9, 11] : List Int).Nodup ∧
    controls_GetSelectedClickerId ⟨[7, 9, 11], 1⟩ = some 9 ∧
    (7 : Int) ≠ 9 ∧
    (controls_ConsumeEvent ⟨[7, 9, 11], 1⟩ ⟨EventType.CLICKER_DESTROY, 7⟩).1
      = ⟨[9, 11], 1⟩ ∧
    controls_GetSelectedClickerId
        (controls_ConsumeEvent ⟨[7, 9, 11], 1⟩ ⟨EventType.CLICKER_DESTROY, 7⟩).1 = some 11 ∧
    controls_GetSelectedClickerId
        (controls_ConsumeEvent ⟨[7, 9, 11], 1⟩ ⟨EventType.CLICKER_DESTROY, 7⟩).1
      ≠ controls_GetSelectedClickerId ⟨[7, 9, 11], 1⟩ := by
  decide

/-- C25, amended: for every controller state with a duplicate-free sequence
(its array fitting an `int` index) and a valid selection of the device `s`, and
every id different from `s`: the selected id reported after
`consumeEvent(device-destroyed(id))` is still `s` when `id` is absent from the
sequence, or sits after the selected device, or the selected device is the
last of the sequence; when `id` sits before the selected device and the
selected device is not the last, the cursor keeps its value and the selected
id reported becomes the id that followed `s`, a different device. -/
theorem C25_destroy_other_device_selection (c : Controls) (id s : Int)
    (hnd : c.connectedClickersId.Nodup)
    (h0 : 0 ≤ c.selectedClickerIndex)
    (hlt : c.selectedClickerIndex < (c.connectedClickersId.length : Int))
    (hlen : c.connectedClickersId.length < 2147483648)
    (hs : controls_GetSelectedClickerId c = some s) (hne : id ≠ s) :
    ((id ∉ c.connectedClickersId
        ∨ c.selectedClickerIndex < (c.connectedClickersId.indexOf id : Int)
        ∨ c.selectedClickerIndex = (c.connectedClickersId.length : Int) - 1) →
      controls_GetSelectedClickerId
          (controls_ConsumeEvent c ⟨EventType.CLICKER_DESTROY, id⟩).1 = some s) ∧
    (id ∈ c.connectedClickersId →
      (c.connectedClickersId.indexOf id : Int) < c.selectedClickerIndex →
      c.selectedClickerIndex + 1 < (c.connectedClickersId.length : Int) →
      (controls_ConsumeEvent c ⟨EventType.CLICKER_DESTROY, id⟩).1.selectedClickerIndex
        = c.selectedClickerIndex ∧
      controls_GetSelectedClickerId
          (controls_ConsumeEvent c ⟨EventType.CLICKER_DESTROY, id⟩).1
        = c.connectedClickersId[c.selectedClickerIndex.toNat + 1]? ∧
      controls_GetSelectedClickerId
          (controls_ConsumeEvent c ⟨EventType.CLICKER_DESTROY, id⟩).1 ≠ some s) := by
  rcases c with ⟨ids, idx⟩
  simp only at hnd h0 hlt hlen hs
  rw [selected_of_valid h0] at hs
  have hk : idx.toNat < ids.length := by omega
  cases hf : findLoop id 0 ids with
  | none =>
    have hnot := (findLoop_none_iff id ids 0).1 hf
    rw [destroy_absent hf h0 hlen hlt]
    constructor
    · intro _
      rw [selected_of_valid h0]
      exact hs
    · intro hmem
      exact absurd hmem hnot
  | some j =>
    obtain ⟨_, hj, hjid, _⟩ := findLoop_some id ids 0 j hf
    have hidx := findLoop_eq_indexOf id ids 0 j hf
    simp only [Nat.sub_zero] at hj hjid
    simp only [Nat.zero_add] at hidx
    have hmem : id ∈ ids := by
      by_contra hnot
      rw [(findLoop_none_iff id ids 0).2 hnot] at hf
      exact absurd hf (by simp)
    have hjk : j ≠ idx.toNat := by
      intro e
      rw [e, hs] at hjid
      exact hne (Option.some.inj hjid).symm
    have hnewlen : (ids.eraseIdx j).length = ids.length - 1 := List.length_eraseIdx_of_lt hj
    rw [destroy_found hf h0 hlen hlt, hnewlen]
    simp only
    constructor
    · intro hcase
      rcases hcase with hcase | hcase | hcase
      · exact absurd hmem hcase
      · rw [← hidx] at hcase
        have hmin : min idx (((ids.length - 1 : Nat) : Int) - 1) = idx := by omega
        rw [hmin, selected_of_valid h0,
          List.getElem?_eraseIdx_of_lt ids j idx.toNat (by omega)]
        exact hs
      · have hmin : min idx (((ids.length - 1 : Nat) : Int) - 1) = idx - 1 := by omega
        have h1 : 0 ≤ idx - 1 := by omega
        rw [hmin, selected_of_valid h1,
          List.getElem?_eraseIdx_of_ge ids j (idx - 1).toNat (by omega)]
        have he : (idx - 1).toNat + 1 = idx.toNat := by omega
        rw [he]
        exact hs
    · intro _ hbefore hnotlast
      rw [← hidx] at hbefore
      have hmin : min idx (((ids.length - 1 : Nat) : Int) - 1) = idx := by omega
      have hget : (ids.eraseIdx j)[idx.toNat]? = ids[idx.toNat + 1]? :=
        List.getElem?_eraseIdx_of_ge ids j idx.toNat (by omega)
      rw [hmin, selected_of_valid h0, hget]
      refine ⟨rfl, rfl, ?_⟩
      intro hsame
      have hk1 : idx.toNat + 1 < ids.length := by omega
      rw [List.getElem?_eq_getElem hk1] at hsame
      rw [List.getElem?_eq_getElem hk] at hs
      have heq : ids[idx.toNat + 1] = ids[idx.toNat] :=
        (Option.some.inj hsame).trans (Option.some.inj hs).symm
      have := (hnd.getElem_inj_iff).1 heq
      omega

/-- Witness of C25 (amended): in `[7, 9, 11]` with device 9 selected,
destroying the later device 11 keeps the selection on 9. -/
theorem C25_destroy_other_device_selection_witness :
    ([7, 9, 11] : List Int).Nodup ∧
    controls_GetSelectedClickerId ⟨[7, 9, 11], 1⟩ = some 9 ∧ (11 : Int) ≠ 9 ∧
    controls_GetSelectedClickerId
        (controls_ConsumeEvent ⟨[7, 9, 11], 1⟩ ⟨EventType.CLICKER_DESTROY, 11⟩).1 = some 9 :=
  ⟨by decide, by decide, by decide,
   (C25_destroy_other_device_selection ⟨[7, 9, 11], 1⟩ 11 9 (by decide) (by decide)
      (by decide) (by decide) (by decide) (by decide)).1 (Or.inr (Or.inl (by decide)))⟩

/-! ## `selectNext` and device-destroyed events with the reads of their `LOG` lines -/

theorem g_array_index_of_valid {a : List Int} {index : Int} (h0 : 0 ≤ index)
    (h1 : index < (a.length : Int)) : ∃ v, g_array_index a index = some v := by
  have hneg : ¬ index < 0 := by omega
  have hlt : index.toNat < a.length := by omega
  exact ⟨a[index.toNat], by
    simp only [g_array_index, if_neg hneg]
    exact List.getElem?_eq_getElem hlt⟩

theorem g_array_index_of_neg (a : List Int) {index : Int} (h : index < 0) :
    g_array_index a index = none := by
  simp only [g_array_index, if_pos h]

theorem selectNext_withLog_of_read (logInfo : Bool) (c : Controls) (v : Int)
    (h : g_array_index (SelectNextClickerCallback c).1.connectedClickersId
      (SelectNextClickerCallback c).1.selectedClickerIndex = some v) :
    SelectNextClickerCallback.withLog logInfo c = some (SelectNextClickerCallback c) := by
  simp only [SelectNextClickerCallback] at h
  cases logInfo with
  | false => rfl
  | true => simp only [SelectNextClickerCallback.withLog, SelectNextClickerCallback, h, if_true]

theorem selectNext_withLog_of_fault (c : Controls)
    (h : g_array_index (SelectNextClickerCallback c).1.connectedClickersId
      (SelectNextClickerCallback c).1.selectedClickerIndex = none) :
    SelectNextClickerCallback.withLog true c = none := by
  simp only [SelectNextClickerCallback] at h
  simp only [SelectNextClickerCallback.withLog, h, if_true]

/-- C3: `selectNext` on a state that satisfies the cursor invariant (its array
fitting an `int` index), with the array read of its `LOG` line.  On a
non-empty sequence it completes, leaves the sequence unchanged and sets the
cursor to `min (cursor + 1) (length - 1)`: never beyond the last index, never
back, nothing changed once at the last index, also on a second call.  On the
empty sequence the cursor is set back to the sentinel -1 and no highlight
command follows, but the `LOG` line reads `g_array_index` at index -1, outside
the array, when it evaluates its arguments; only without that evaluation is
the call a no-op. -/
theorem C3_selectNext_log_reads_outside_empty_array (c : Controls) (hinv : CursorInv c)
    (hlen : c.connectedClickersId.length < 2147483648) :
    (c.connectedClickersId ≠ [] → ∀ logInfo : Bool,
      ∃ c1 c2 : Controls,
        SelectNextClickerCallback.withLog logInfo c = some (c1, UpdateHighlights c1) ∧
        c1.connectedClickersId = c.connectedClickersId ∧
        c1.selectedClickerIndex
          = min (c.selectedClickerIndex + 1) ((c.connectedClickersId.length : Int) - 1) ∧
        c1.selectedClickerIndex ≤ (c.connectedClickersId.length : Int) - 1 ∧
        c.selectedClickerIndex ≤ c1.selectedClickerIndex ∧
        (c.selectedClickerIndex = (c.connectedClickersId.length : Int) - 1 → c1 = c) ∧
        SelectNextClickerCallback.withLog logInfo c1 = some (c2, UpdateHighlights c2) ∧
        c2.connectedClickersId = c.connectedClickersId ∧
        c2.selectedClickerIndex
          = min (c.selectedClickerIndex + 2) ((c.connectedClickersId.length : Int) - 1)) ∧
    (c.connectedClickersId = [] →
      c.selectedClickerIndex = -1 ∧
      (SelectNextClickerCallback c).1 = c ∧
      g_array_index c.connectedClickersId c.selectedClickerIndex = none ∧
      SelectNextClickerCallback.withLog true c = none ∧
      SelectNextClickerCallback.withLog false c = some (c, [])) := by
  obtain ⟨e1, e2, e3, e4, e5, e6, e7⟩ := selectNext_effect c hinv hlen
  obtain ⟨i1, i2, i3⟩ := hinv
  constructor
  · intro hne logInfo
    have hpos : 0 < c.connectedClickersId.length := List.length_pos.2 hne
    have hc0 : 0 ≤ c.selectedClickerIndex := by
      by_contra hneg
      have : c.selectedClickerIndex = -1 := by omega
      have := i3.1 this
      omega
    -- first call
    have hr1 : 0 ≤ (SelectNextClickerCallback c).1.selectedClickerIndex := by omega
    have hr2 : (SelectNextClickerCallback c).1.selectedClickerIndex
        < ((SelectNextClickerCallback c).1.connectedClickersId.length : Int) := by
      rw [e1]; omega
    obtain ⟨v, hv⟩ := g_array_index_of_valid hr1 hr2
    have hrun := selectNext_withLog_of_read logInfo c v hv
    -- second call, on the state after the first
    have hinv1 : CursorInv (SelectNextClickerCallback c).1 := by
      refine ⟨by omega, by rw [e1]; omega, ?_⟩
      constructor
      · intro h; omega
      · intro h; rw [e1] at h; omega
    have hlen1 : (SelectNextClickerCallback c).1.connectedClickersId.length < 2147483648 := by
      rw [e1]; exact hlen
    obtain ⟨f1, f2, _, _, _, _, _⟩ := selectNext_effect (SelectNextClickerCallback c).1 hinv1 hlen1
    have hs1 : 0 ≤ (SelectNextClickerCallback (SelectNextClickerCallback c).1).1.selectedClickerIndex := by
      rw [e6]; omega
    have hs2 : (SelectNextClickerCallback (SelectNextClickerCallback c).1).1.selectedClickerIndex
        < ((SelectNextClickerCallback
            (SelectNextClickerCallback c).1).1.connectedClickersId.length : Int) := by
      rw [f1, e1, e6]; omega
    obtain ⟨w, hw⟩ := g_array_index_of_valid hs1 hs2
    have hrun2 := selectNext_withLog_of_read logInfo (SelectNextClickerCallback c).1 w hw
    exact ⟨(SelectNextClickerCallback c).1,
      (SelectNextClickerCallback (SelectNextClickerCallback c).1).1,
      hrun, e1, e2, e3, e4, e5, hrun2, by rw [f1, e1], e6⟩
  · intro hnil
    have hlen0 : c.connectedClickersId.length = 0 := by rw [hnil]; rfl
    have hm : c.selectedClickerIndex = -1 := i3.2 hlen0
    have hpure := e7 hnil
    have hstate : (SelectNextClickerCallback c).1 = c := by rw [hpure]
    have hread : g_array_index c.connectedClickersId c.selectedClickerIndex = none :=
      g_array_index_of_neg _ (by omega)
    refine ⟨hm, hstate, hread, ?_, ?_⟩
    · apply selectNext_withLog_of_fault
      rw [hstate]
      exact hread
    · have : SelectNextClickerCallback.withLog false c = some (SelectNextClickerCallback c) :=
        rfl
      rw [this, hpure]

/-- Witness of C3: the initial controller state, where the `LOG` line reads
outside the array, and two clickers with the first selected. -/
theorem C3_selectNext_log_reads_outside_empty_array_witness :
    CursorInv initialControls ∧ initialControls.connectedClickersId = [] ∧
    SelectNextClickerCallback.withLog true initialControls = none ∧
    CursorInv ⟨[7, 9], 0⟩ ∧
    ∃ c1 : Controls,
      SelectNextClickerCallback.withLog true ⟨[7, 9], 0⟩ = some (c1, UpdateHighlights c1) ∧
      c1.connectedClickersId = [7, 9] ∧
      c1.selectedClickerIndex = min ((0 : Int) + 1) (((2 : Nat) : Int) - 1) :=
  ⟨by decide, rfl,
   ((C3_selectNext_log_reads_outside_empty_array initialControls (by decide)
      (by decide)).2 rfl).2.2.2.1,
   by decide,
   match (C3_selectNext_log_reads_outside_empty_array ⟨[7, 9], 0⟩ (by decide)
      (by decide)).1 (by decide) true with
   | ⟨c1, _, h1, h2, h3, _⟩ => ⟨c1, h1, h2, h3⟩⟩

theorem remove_withLog_false (c : Controls) (clickerID : Int) :
    RemoveClickerWithID.withLog false c clickerID = some (RemoveClickerWithID c clickerID) := by
  unfold RemoveClickerWithID.withLog RemoveClickerWithID
  generalize (findLoop clickerID 0 c.connectedClickersId).getD 4294967295 = k
  have hk : k ≥ 0 := Nat.zero_le k
  rewrite [if_pos hk, if_pos hk]
  generalize g_array_remove_index c.connectedClickersId k = arr
  by_cases hclamp : toUInt c.selectedClickerIndex ≥ arr.length
  · rewrite [if_pos hclamp, if_pos hclamp, if_neg (by decide : ¬ (false = true))]
    exact rfl
  · rewrite [if_neg hclamp, if_neg hclamp]
    exact rfl

theorem remove_withLog_of_read (logInfo : Bool) (c : Controls) (clickerID : Int) (v : Int)
    (h : g_array_index (RemoveClickerWithID c clickerID).connectedClickersId
      (RemoveClickerWithID c clickerID).selectedClickerIndex = some v) :
    RemoveClickerWithID.withLog logInfo c clickerID
      = some (RemoveClickerWithID c clickerID) := by
  cases logInfo with
  | false => exact remove_withLog_false c clickerID
  | true =>
    unfold RemoveClickerWithID at h ⊢
    unfold RemoveClickerWithID.withLog
    generalize (findLoop clickerID 0 c.connectedClickersId).getD 4294967295 = k at h ⊢
    have hk : k ≥ 0 := Nat.zero_le k
    rewrite [if_pos hk] at h
    rewrite [if_pos hk, if_pos hk]
    generalize g_array_remove_index c.connectedClickersId k = arr at h ⊢
    by_cases hclamp : toUInt c.selectedClickerIndex ≥ arr.length
    · rewrite [if_pos hclamp] at h
      rewrite [if_pos hclamp, if_pos hclamp, if_pos rfl]
      generalize lenMinusOne arr.length = m at h ⊢
      have h1 : g_array_index arr m = some v := h
      rewrite [h1]
      exact rfl
    · rewrite [if_neg hclamp, if_neg hclamp]
      exact rfl

theorem remove_withLog_of_emptied (c : Controls) (clickerID : Int)
    (h : (RemoveClickerWithID c clickerID).connectedClickersId = []) :
    RemoveClickerWithID.withLog true c clickerID = none := by
  unfold RemoveClickerWithID at h
  unfold RemoveClickerWithID.withLog
  generalize (findLoop clickerID 0 c.connectedClickersId).getD 4294967295 = k at h ⊢
  have hk : k ≥ 0 := Nat.zero_le k
  rewrite [if_pos hk] at h
  rewrite [if_pos hk]
  generalize g_array_remove_index c.connectedClickersId k = arr at h ⊢
  have harr : arr = [] := by
    by_cases hclamp : toUInt c.selectedClickerIndex ≥ arr.length
    · rewrite [if_pos hclamp] at h; exact h
    · rewrite [if_neg hclamp] at h; exact h
  subst harr
  have hclamp : toUInt c.selectedClickerIndex ≥ ([] : List Int).length := Nat.zero_le _
  rewrite [if_pos hclamp, if_pos rfl, List.length_nil, lenMinusOne_zero]
  exact rfl

/-- C4: `consumeEvent(device-destroyed(id))` on a state with a duplicate-free
sequence that satisfies the cursor invariant (its array fitting an `int`
index), with the array read of the `LOG` line of `RemoveClickerWithID`.  When
an id other than `id` remains, the call completes and returns true, the new
sequence is the old one without `id` in the old order (unchanged state when
`id` is absent), and the new cursor is `min (old cursor) (new length - 1)`.
When no id remains (the last device is destroyed, or the sequence was empty
already), the cursor is set to the sentinel -1 and the `LOG` line reads
`g_array_index` at index -1, outside the array, when it evaluates its
arguments; only without that evaluation does the call return true with the
empty sequence and the sentinel.  After create(7), create(9), destroy(7) the
sequence is `[9]` and the selected id is 9. -/
theorem C4_destroy_log_reads_outside_emptied_array (c : Controls) (id : Int)
    (hnd : c.connectedClickersId.Nodup) (hinv : CursorInv c)
    (hlen : c.connectedClickersId.length < 2147483648) :
    (c.connectedClickersId.filter (fun x => decide (x ≠ id)) ≠ [] → ∀ logInfo : Bool,
      ∃ c1 : Controls,
        controls_ConsumeEvent.withLog logInfo c ⟨EventType.CLICKER_DESTROY, id⟩
          = some (c1, UpdateHighlights c1, true) ∧
        c1.connectedClickersId = c.connectedClickersId.filter (fun x => decide (x ≠ id)) ∧
        (id ∈ c.connectedClickersId →
          c1.connectedClickersId = c.connectedClickersId.erase id ∧
          c1.connectedClickersId.length + 1 = c.connectedClickersId.length) ∧
        (id ∉ c.connectedClickersId → c1 = c) ∧
        c1.selectedClickerIndex
          = min c.selectedClickerIndex ((c1.connectedClickersId.length : Int) - 1)) ∧
    (c.connectedClickersId.filter (fun x => decide (x ≠ id)) = [] →
      (controls_ConsumeEvent c ⟨EventType.CLICKER_DESTROY, id⟩).1
        = { connectedClickersId := [], selectedClickerIndex := -1 } ∧
      g_array_index [] (-1) = none ∧
      controls_ConsumeEvent.withLog true c ⟨EventType.CLICKER_DESTROY, id⟩ = none ∧
      controls_ConsumeEvent.withLog false c ⟨EventType.CLICKER_DESTROY, id⟩
        = some ({ connectedClickersId := [], selectedClickerIndex := -1 }, [], true)) ∧
    (∀ logInfo : Bool,
      runEvents.withLog logInfo initialControls
          [⟨EventType.CLICKER_CREATE, 7⟩, ⟨EventType.CLICKER_CREATE, 9⟩,
           ⟨EventType.CLICKER_DESTROY, 7⟩]
        = some { connectedClickersId := [9], selectedClickerIndex := 0 }) ∧
    controls_GetSelectedClickerId { connectedClickersId := [9], selectedClickerIndex := 0 }
      = some 9 := by
  obtain ⟨_, e2, e3, e4, e5, _, _⟩ := destroy_effect c id hnd hinv hlen
  have hpure : (controls_ConsumeEvent c ⟨EventType.CLICKER_DESTROY, id⟩).1
      = RemoveClickerWithID c id := rfl
  rw [hpure] at e2 e3 e4 e5
  obtain ⟨i1, i2, i3⟩ := hinv
  refine ⟨?_, ?_, ?_, by decide⟩
  · intro hne logInfo
    have hnewpos : 0 < (RemoveClickerWithID c id).connectedClickersId.length := by
      rw [e2]; exact List.length_pos.2 hne
    have hle : (c.connectedClickersId.filter (fun x => decide (x ≠ id))).length
        ≤ c.connectedClickersId.length := List.length_filter_le _ _
    have hc0 : 0 ≤ c.selectedClickerIndex := by
      by_contra hneg
      have hm : c.selectedClickerIndex = -1 := by omega
      have := i3.1 hm
      rw [e2] at hnewpos
      omega
    have hr1 : 0 ≤ (RemoveClickerWithID c id).selectedClickerIndex := by
      rw [e5]; omega
    have hr2 : (RemoveClickerWithID c id).selectedClickerIndex
        < ((RemoveClickerWithID c id).connectedClickersId.length : Int) := by
      rw [e5]; omega
    obtain ⟨v, hv⟩ := g_array_index_of_valid hr1 hr2
    have hrun := remove_withLog_of_read logInfo c id v hv
    refine ⟨RemoveClickerWithID c id, ?_, e2, e3, e4, e5⟩
    simp only [controls_ConsumeEvent.withLog, hrun]
  · intro hnil
    have hids : (RemoveClickerWithID c id).connectedClickersId = [] := by rw [e2, hnil]
    have hidx : (RemoveClickerWithID c id).selectedClickerIndex = -1 := by
      rw [e5, hids]
      simp only [List.length_nil]
      omega
    have hstate : RemoveClickerWithID c id
        = { connectedClickersId := [], selectedClickerIndex := -1 } := by
      rw [← hids, ← hidx]
    refine ⟨by rw [hpure]; exact hstate, g_array_index_of_neg _ (by decide), ?_, ?_⟩
    · simp only [controls_ConsumeEvent.withLog, remove_withLog_of_emptied c id hids]
    · simp only [controls_ConsumeEvent.withLog, remove_withLog_false, hstate]
      rfl
  · intro logInfo
    cases logInfo <;> decide

/-- Witness of C4: destroying the only device of `[7]`, where the `LOG` line
reads outside the array, and destroying the selected last device of `[7, 9]`. -/
theorem C4_destroy_log_reads_outside_emptied_array_witness :
    ([7] : List Int).Nodup ∧ CursorInv ⟨[7], 0⟩ ∧
    ([7] : List Int).filter (fun x => decide (x ≠ 7)) = [] ∧
    controls_ConsumeEvent.withLog true ⟨[7], 0⟩ ⟨EventType.CLICKER_DESTROY, 7⟩ = none ∧
    ([7, 9] : List Int).Nodup ∧ CursorInv ⟨[7, 9], 1⟩ ∧
    ∃ c1 : Controls,
      controls_ConsumeEvent.withLog true ⟨[7, 9], 1⟩ ⟨EventType.CLICKER_DESTROY, 9⟩
        = some (c1, UpdateHighlights c1, true) ∧
      c1.connectedClickersId = ([7, 9] : List Int).filter (fun x => decide (x ≠ 9)) :=
  ⟨by decide, by decide, by decide,
   ((C4_destroy_log_reads_outside_emptied_array ⟨[7], 0⟩ 7 (by decide) (by decide)
      (by decide)).2.1 (by decide)).2.2.1,
   by decide, by decide,
   match (C4_destroy_log_reads_outside_emptied_array ⟨[7, 9], 1⟩ 9 (by decide) (by decide)
      (by decide)).1 (by decide) true with
   | ⟨c1, h1, h2, _⟩ => ⟨c1, h1, h2⟩⟩

end ProvisionDaemon
